import Mathlib

/-!
Verification of the Agentic Commerce Protocol demo (merchant + PSP services).

Shallow embedding conventions:
- Money is integer minor units, modelled as Nat (the HTTP routes reject
  non-positive or non-integer amounts before the embedded services run).
- Timestamps (ISO strings / Date values in the source) are modelled as
  epoch milliseconds (Nat); the current wall-clock time is an explicit
  parameter wherever the source calls Date.now or new Date.
- Randomly generated identifiers (uuid v4) are explicit parameters.
- Database tables are association lists carried in explicit state records;
  a thrown JS error object becomes the error branch of Except.
- sha256 digests are modelled by the exact string that is digested: in the
  model two digests are equal iff the digested serializations are equal,
  which matches sha256 up to (unobserved) collisions.
- JS Math.round of subtotal * 0.10 (PricingCalculator.calculateTax): for
  cent amounts in the double-exactly-representable range the product
  rounds to the value whose half-up rounding is (t + 5) / 10, so the
  embedding uses that integer form.
- SessionManager.checkIfRequiresShipping calls the async getProduct
  without await; the embedding gives it its runtime value (false for
  every cart), documented on the definition.
-/

namespace ACP

/-! ## PSP data model (src/demo/psp) -/

/-- Spending authorization attached to a vault token (demo fields used by
the payment-intent engine; presentational fields are elided). -/
structure Allowance where
  max_amount : Nat
  currency : String
  reason : String
  expires_at : Nat
  merchant_id : String
deriving Repr, DecidableEq

/-- Status column of the vault_tokens table. -/
inductive TokenStatus where
| active
| consumed
| expired
deriving Repr, DecidableEq

/-- Row of the PSP vault_tokens table (fields the engine reads). -/
structure VaultToken where
  id : String
  allowance : Allowance
  status : TokenStatus
deriving Repr, DecidableEq

/-- Status column of the payment_intents table. -/
inductive IntentStatus where
| pending
| completed
| failed
deriving Repr, DecidableEq

/-- Row of the PSP payment_intents table. -/
structure PaymentIntent where
  id : String
  vault_token_id : String
  status : IntentStatus
  amount : Nat
  currency : String
  merchant_id : String
  created : Nat
  completed_at : Option Nat
deriving Repr, DecidableEq

/-- Error body returned by PSP endpoints; the JSON field named type is
rendered etype because type is a Lean keyword. -/
structure ErrorBody where
  etype : String
  code : String
  message : String
  param : Option String
deriving Repr, DecidableEq

/-- Thrown JS error object: HTTP status plus structured body. -/
structure ApiError where
  status : Nat
  body : ErrorBody
deriving Repr, DecidableEq

/-- PSP datastore: the two tables touched by the payment-intent engine. -/
structure PspState where
  vault_tokens : List VaultToken
  payment_intents : List PaymentIntent
deriving Repr, DecidableEq

/-- Body of POST /agentic_commerce/create_and_process_payment_intent. -/
structure CreatePaymentIntentRequest where
  shared_payment_token : String
  amount : Nat
  currency : String
  merchant_id : Option String
deriving Repr, DecidableEq

/-- Response of a successful create_and_process_payment_intent call. -/
structure PaymentIntentResponse where
  id : String
  status : IntentStatus
  amount : Nat
  currency : String
  vault_token_id : String
  created : Nat
  completed_at : Option Nat
deriving Repr, DecidableEq

/-! ## PSP PaymentIntentService (src/demo/psp/src/services/PaymentIntentService.ts) -/

namespace PaymentIntentService

/-- SELECT ... FROM vault_tokens WHERE id = $1, first row. -/
def lookupVaultToken (st : PspState) (vaultTokenId : String) : Option VaultToken :=
  st.vault_tokens.find? (fun v => v.id == vaultTokenId)

/-- Validate vault token exists, is active, and not expired
(PaymentIntentService.validateVaultToken). -/
def validateVaultToken (st : PspState) (now : Nat) (vaultTokenId : String) :
    Except ApiError VaultToken :=
  match lookupVaultToken st vaultTokenId with
  | none =>
    .error { status := 400,
             body := { etype := "invalid_request", code := "invalid_vault_token",
                       message := "Vault token not found",
                       param := some ("shared_payment_token") } }
  | some token =>
    if token.status = .consumed then
      .error { status := 400,
               body := { etype := "invalid_request", code := "vault_token_already_used",
                         message := "Vault token has already been used",
                         param := some ("shared_payment_token") } }
    else if token.allowance.expires_at < now then
      .error { status := 400,
               body := { etype := "invalid_request", code := "vault_token_expired",
                         message := "Vault token has expired",
                         param := some ("shared_payment_token") } }
    else
      .ok token

/-- Validate payment amount and currency against allowance
(PaymentIntentService.validatePaymentDetails). -/
def validatePaymentDetails (amount : Nat) (currency : String) (allowance : Allowance) :
    Except ApiError Unit :=
  if allowance.max_amount < amount then
    .error { status := 400,
             body := { etype := "invalid_request", code := "amount_exceeds_allowance",
                       message := "Amount " ++ toString amount ++
                         " exceeds maximum allowance of " ++ toString allowance.max_amount,
                       param := some ("amount") } }
  else if currency ≠ allowance.currency then
    .error { status := 400,
             body := { etype := "invalid_request", code := "currency_mismatch",
                       message := "Currency " ++ currency ++
                         " does not match vault token currency " ++ allowance.currency,
                       param := some ("currency") } }
  else if allowance.reason ≠ "one_time" then
    .error { status := 400,
             body := { etype := "invalid_request", code := "invalid_allowance",
                       message := "Vault token allowance must be one_time",
                       param := none } }
  else
    .ok ()

/-- INSERT INTO payment_intents ... VALUES (..., 'pending', ...). -/
def insertIntent (st : PspState) (pi : PaymentIntent) : PspState :=
  { st with payment_intents := st.payment_intents ++ [pi] }

/-- UPDATE payment_intents SET status = 'completed', completed_at = $1 WHERE id = $2. -/
def completeIntent (st : PspState) (paymentIntentId : String) (completedAt : Nat) : PspState :=
  { st with payment_intents :=
      st.payment_intents.map (fun pi =>
        if pi.id = paymentIntentId then
          { pi with status := .completed, completed_at := some completedAt }
        else pi) }

/-- UPDATE vault_tokens SET status = 'consumed' WHERE id = $1
(PaymentIntentService.invalidateVaultToken). -/
def invalidateVaultToken (st : PspState) (vaultTokenId : String) : PspState :=
  { st with vault_tokens :=
      st.vault_tokens.map (fun v =>
        if v.id = vaultTokenId then { v with status := .consumed } else v) }

/-- Create and process a payment intent
(PaymentIntentService.createAndProcessPaymentIntent).  The uuid-generated
intent id and the wall clock are parameters; the simulated 2-second
processing delay is real time only and does not change the state, so the
single parameter now stands for both the creation and completion stamps. -/
def createAndProcessPaymentIntent (st : PspState) (now : Nat) (newIntentId : String)
    (request : CreatePaymentIntentRequest) : Except ApiError (PspState × PaymentIntentResponse) :=
  match validateVaultToken st now request.shared_payment_token with
  | .error e => .error e
  | .ok vaultToken =>
    match validatePaymentDetails request.amount request.currency vaultToken.allowance with
    | .error e => .error e
    | .ok _ =>
      let pi : PaymentIntent :=
        { id := newIntentId,
          vault_token_id := request.shared_payment_token,
          status := .pending,
          amount := request.amount,
          currency := request.currency,
          merchant_id := request.merchant_id.getD vaultToken.allowance.merchant_id,
          created := now,
          completed_at := none }
      let st1 := insertIntent st pi
      let st2 := completeIntent st1 newIntentId now
      let st3 := invalidateVaultToken st2 request.shared_payment_token
      .ok (st3,
        { id := newIntentId, status := .completed, amount := request.amount,
          currency := request.currency, vault_token_id := request.shared_payment_token,
          created := now, completed_at := some now })

end PaymentIntentService

/-- One merchant call against the PSP payment-intent endpoint: wall clock,
fresh uuid for the intent row, and the request body. -/
structure PspCall where
  now : Nat
  newIntentId : String
  request : CreatePaymentIntentRequest
deriving Repr, DecidableEq

/-- State reached after one call: the endpoint mutates nothing when a
validation error is thrown, and commits the full insert/complete/consume
sequence on success. -/
def pspStep (st : PspState) (c : PspCall) : PspState :=
  match PaymentIntentService.createAndProcessPaymentIntent st c.now c.newIntentId c.request with
  | .ok (st1, _) => st1
  | .error _ => st

/-- State reached after a sequence of payment-intent calls. -/
def pspRun (st : PspState) (calls : List PspCall) : PspState :=
  calls.foldl pspStep st

/-- Status recorded for a vault token id, as validateVaultToken reads it. -/
def tokenStatus (st : PspState) (vaultTokenId : String) : Option TokenStatus :=
  (PaymentIntentService.lookupVaultToken st vaultTokenId).map (fun v => v.status)

/-- Number of successful (completed) payment intents funded by a token. -/
def fundedIntents (st : PspState) (vaultTokenId : String) : Nat :=
  st.payment_intents.countP (fun pi =>
    pi.vault_token_id == vaultTokenId && pi.status == IntentStatus.completed)

/-! ## Merchant data model (src/demo/merchant/src/models/types.ts) -/

/-- Fulfillment address. -/
structure Address where
  name : String
  line_one : String
  line_two : Option String
  city : String
  state : String
  country : String
  postal_code : String
deriving Repr, DecidableEq

/-- Buyer contact details; the database stores the four columns and
reconstructs the object when the email column is present, which this model
renders directly as an optional record. -/
structure Buyer where
  first_name : String
  last_name : String
  email : String
  phone_number : Option String
deriving Repr, DecidableEq

/-- Requested piece of merchandise: product id plus quantity. -/
structure Item where
  id : String
  quantity : Nat
deriving Repr, DecidableEq

/-- Priced entry of a checkout session. -/
structure LineItem where
  id : String
  item : Item
  base_amount : Nat
  discount : Nat
  subtotal : Nat
  tax : Nat
  total : Nat
deriving Repr, DecidableEq

/-- Entry of the order-level totals array; the discount entry is emitted
negated, so the amount is an integer. -/
structure Total where
  ttype : String
  display_text : String
  amount : Int
deriving Repr, DecidableEq

/-- Fulfillment option (tagged by otype, shipping or digital).  The
presentational delivery-window timestamps of the shipping variant are real
wall-clock strings and are elided; no embedded computation reads them. -/
structure FulfillmentOption where
  otype : String
  id : String
  title : String
  subtitle : String
  carrier : Option String
  subtotal : Nat
  tax : Nat
  total : Nat
deriving Repr, DecidableEq

/-- Catalog product: the fields the checkout logic reads
(src/demo/merchant/src/models (Product)); the feed-only presentational
fields (brand, images, reviews, ...) are elided. -/
structure Product where
  id : String
  name : String
  base_price : Nat
  available_quantity : Nat
  requires_shipping : Bool
deriving Repr, DecidableEq

/-- Informational or error message attached to a session. -/
structure Message where
  mtype : String
  code : Option String
  param : Option String
  content_type : String
  content : String
deriving Repr, DecidableEq

/-- Order created when a session completes. -/
structure Order where
  id : String
  checkout_session_id : String
  permalink_url : String
deriving Repr, DecidableEq

/-- Checkout session status enum. -/
inductive CheckoutStatus where
| not_ready_for_payment
| ready_for_payment
| in_progress
| completed
| canceled
deriving Repr, DecidableEq

/-- Payment provider block of a session. -/
structure PaymentProvider where
  provider : String
  supported_payment_methods : List String
deriving Repr, DecidableEq

/-- Terms/privacy link of a session. -/
structure Link where
  ltype : String
  url : String
deriving Repr, DecidableEq

/-- Full checkout session as returned by the merchant endpoints. -/
structure CheckoutSession where
  id : String
  buyer : Option Buyer
  payment_provider : PaymentProvider
  status : CheckoutStatus
  currency : String
  line_items : List LineItem
  fulfillment_address : Option Address
  fulfillment_options : List FulfillmentOption
  fulfillment_option_id : Option String
  totals : List Total
  messages : List Message
  links : List Link
  order : Option Order
deriving Repr, DecidableEq

/-! ## Merchant PricingCalculator (src/demo/merchant/src/services/PricingCalculator.ts) -/

namespace PricingCalculator

/-- Per-line pricing result (interface LineItemCalculation). -/
structure LineItemCalculation where
  base_amount : Nat
  discount : Nat
  subtotal : Nat
  tax : Nat
  total : Nat
deriving Repr, DecidableEq

/-- Calculate pricing for a single line item. -/
def calculateLineItem (product : Product) (quantity : Nat) : LineItemCalculation :=
  let base_amount := product.base_price * quantity
  let discount := 0
  let subtotal := base_amount - discount
  let tax := 0
  let total := subtotal + tax
  { base_amount := base_amount, discount := discount, subtotal := subtotal,
    tax := tax, total := total }

/-- Build a complete LineItem from product and quantity.  The uuid line id
is modelled deterministically from the item id; no embedded computation
compares line-item ids. -/
def buildLineItem (product : Product) (item : Item) : LineItem :=
  let c := calculateLineItem product item.quantity
  { id := "li_" ++ item.id, item := item, base_amount := c.base_amount,
    discount := c.discount, subtotal := c.subtotal, tax := c.tax, total := c.total }

/-- Calculate tax based on address (CA = 10 percent, others = 0 for MVP).
The source computes Math.round of subtotal * 0.10; on integer cent inputs
this is round-half-up of a tenth, (subtotal + 5) / 10. -/
def calculateTax (subtotal : Nat) (address : Option Address) : Nat :=
  match address with
  | none => 0
  | some a => if a.state = "CA" then (subtotal + 5) / 10 else 0

/-- Calculate totals array for checkout session. -/
def calculateTotals (lineItems : List LineItem) (fulfillmentCost : Nat)
    (address : Option Address) : List Total :=
  let items_base_amount := (lineItems.map (fun li => li.base_amount)).sum
  let items_discount := (lineItems.map (fun li => li.discount)).sum
  let subtotal := items_base_amount - items_discount
  let taxable_amount := subtotal + fulfillmentCost
  let tax := calculateTax taxable_amount address
  let total := subtotal + fulfillmentCost + tax
  let totals : List Total :=
    [{ ttype := "items_base_amount", display_text := "Items Subtotal",
       amount := (items_base_amount : Int) }]
  let totals := if 0 < items_discount then
      totals ++ [{ ttype := "items_discount", display_text := "Discount",
                   amount := -(items_discount : Int) }]
    else totals
  let totals := totals ++ [{ ttype := "subtotal", display_text := "Subtotal",
                             amount := (subtotal : Int) }]
  let totals := if 0 < fulfillmentCost then
      totals ++ [{ ttype := "fulfillment", display_text := "Shipping",
                   amount := (fulfillmentCost : Int) }]
    else totals
  let totals := if 0 < tax then
      totals ++ [{ ttype := "tax", display_text := "Tax", amount := (tax : Int) }]
    else totals
  totals ++ [{ ttype := "total", display_text := "Total", amount := (total : Int) }]

end PricingCalculator

/-! ## Merchant FulfillmentManager (src/demo/merchant/src/services (FulfillmentManager)) -/

namespace FulfillmentManager

/-- Generate fulfillment options based on cart contents and address. -/
def generateOptions (requiresShipping : Bool) (address : Option Address) :
    List FulfillmentOption :=
  if requiresShipping then
    match address with
    | none => []
    | some a =>
      let standardShippingCost := 500
      let standardTax := PricingCalculator.calculateTax standardShippingCost (some a)
      let expressShippingCost := 1500
      let expressTax := PricingCalculator.calculateTax expressShippingCost (some a)
      [{ otype := "shipping", id := "standard_shipping", title := "Standard Shipping",
         subtitle := "4-5 business days", carrier := some ("USPS"),
         subtotal := standardShippingCost, tax := standardTax,
         total := standardShippingCost + standardTax },
       { otype := "shipping", id := "express_shipping", title := "Express Shipping",
         subtitle := "1-2 business days", carrier := some ("FedEx"),
         subtotal := expressShippingCost, tax := expressTax,
         total := expressShippingCost + expressTax }]
  else
    [{ otype := "digital", id := "digital_delivery", title := "Digital Delivery",
       subtitle := "Instant access", carrier := none,
       subtotal := 0, tax := 0, total := 0 }]

/-- Select default fulfillment option (first, the cheapest). -/
def selectDefaultOption (options : List FulfillmentOption) : Option String :=
  (options.head?).map (fun o => o.id)

/-- Get fulfillment cost in cents from option id. -/
def getFulfillmentCost (optionId : Option String) (options : List FulfillmentOption) : Nat :=
  match optionId with
  | none => 0
  | some oid =>
    match options.find? (fun o => o.id == oid) with
    | none => 0
    | some o => o.subtotal

/-- Validate that the fulfillment option exists in available options. -/
def validateOption (optionId : String) (options : List FulfillmentOption) : Bool :=
  options.any (fun o => o.id == optionId)

end FulfillmentManager

/-! ## Merchant SessionManager (src/demo/merchant/src/services/SessionManager.ts) -/

/-- Body of POST /checkout_sessions. -/
structure CheckoutSessionCreateRequest where
  items : List Item
  buyer : Option Buyer
  fulfillment_address : Option Address
deriving Repr, DecidableEq

/-- Body of POST /checkout_sessions/:id (update). -/
structure CheckoutSessionUpdateRequest where
  items : Option (List Item)
  buyer : Option Buyer
  fulfillment_address : Option Address
  fulfillment_option_id : Option String
deriving Repr, DecidableEq

/-- Tokenized payment data of a complete call. -/
structure PaymentData where
  token : String
  provider : String
  billing_address : Option Address
deriving Repr, DecidableEq

/-- Body of POST /checkout_sessions/:id/complete. -/
structure CheckoutSessionCompleteRequest where
  buyer : Option Buyer
  payment_data : PaymentData
deriving Repr, DecidableEq

/-- Request the merchant PaymentService sends to the PSP. -/
structure ProcessPaymentRequest where
  shared_payment_token : String
  amount : Int
  currency : String
deriving Repr, DecidableEq

/-- Payment-intent response as the merchant sees it over HTTP (the status
is the raw JSON string). -/
structure MerchantPaymentIntent where
  id : String
  status : String
  amount : Int
  currency : String
deriving Repr, DecidableEq

/-- Row of the checkout_sessions table together with its line_items rows. -/
structure StoredSession where
  id : String
  buyer : Option Buyer
  status : CheckoutStatus
  currency : String
  fulfillment_address : Option Address
  fulfillment_option_id : Option String
  order_id : Option String
  line_items : List LineItem
deriving Repr, DecidableEq

/-- Merchant datastore: sessions (with line items) and orders. -/
structure MerchantState where
  sessions : List StoredSession
  orders : List Order
deriving Repr, DecidableEq

namespace SessionManager

/-- Result of validateAndBuildLineItems. -/
structure BuildResult where
  lineItems : List LineItem
  errors : List Message
  requiresShipping : Bool
deriving Repr, DecidableEq

/-- Catalog lookup (ProductCatalog.getProduct). -/
def getProduct (catalog : List Product) (id : String) : Option Product :=
  catalog.find? (fun p => p.id == id)

/-- ProductCatalog.checkAvailability: product exists and has stock. -/
def checkAvailability (catalog : List Product) (id : String) (quantity : Nat) : Bool :=
  match getProduct catalog id with
  | none => false
  | some p => quantity ≤ p.available_quantity

/-- One loop iteration of validateAndBuildLineItems. -/
def buildLineItemStep (catalog : List Product) (acc : BuildResult) (item : Item) : BuildResult :=
  match getProduct catalog item.id with
  | none =>
    { acc with errors := acc.errors ++
        [{ mtype := "error", code := some ("invalid"),
           param := some ("$.items[?(@.id==\x27" ++ item.id ++ "\x27)]"),
           content_type := "plain",
           content := "Product " ++ item.id ++ " not found" }] }
  | some product =>
    if checkAvailability catalog item.id item.quantity then
      { acc with
        lineItems := acc.lineItems ++ [PricingCalculator.buildLineItem product item],
        requiresShipping := acc.requiresShipping || product.requires_shipping }
    else
      { acc with errors := acc.errors ++
          [{ mtype := "error", code := some ("out_of_stock"),
             param := some ("$.items[?(@.id==\x27" ++ item.id ++ "\x27)]"),
             content_type := "plain",
             content := "Product " ++ item.id ++
               " is out of stock or insufficient quantity available" }] }

/-- Validate items against the catalog and build line items
(SessionManager.validateAndBuildLineItems). -/
def validateAndBuildLineItems (catalog : List Product) (items : List Item) : BuildResult :=
  items.foldl (buildLineItemStep catalog)
    { lineItems := [], errors := [], requiresShipping := false }

/-- Does any line item reference a shipping-required product
(SessionManager.checkIfRequiresShipping).  The source invokes the async
ProductCatalog.getProduct WITHOUT await (the service runs transpile-only
under tsx, so the type error is never caught): the optional chain reads
requires_shipping off a pending Promise and yields undefined, and each
iteration evaluates undefined || false = false.  At runtime the method
therefore returns false for every cart, and the embedding gives it that
runtime value rather than the lookup the surrounding code intends. -/
def checkIfRequiresShipping (lineItems : List LineItem) : Bool :=
  lineItems.any (fun _ => false)

/-- Derive the session status (SessionManager.determineStatus). -/
def determineStatus (lineItems : List LineItem) (requiresShipping : Bool)
    (address : Option Address) (fulfillmentOptionId : Option String) : CheckoutStatus :=
  if lineItems.length = 0 then
    .not_ready_for_payment
  else if requiresShipping && (address.isNone || fulfillmentOptionId.isNone) then
    .not_ready_for_payment
  else
    .ready_for_payment

/-- Constant links block (SessionManager.generateLinks). -/
def generateLinks : List Link :=
  [{ ltype := "terms_of_use", url := "https://merchant.example.com/terms" },
   { ltype := "privacy_policy", url := "https://merchant.example.com/privacy" }]

/-- Constant payment-provider block (SessionManager.getPaymentProvider). -/
def getPaymentProvider : PaymentProvider :=
  { provider := "stripe", supported_payment_methods := ["card"] }

/-- Session returned when item validation failed; never persisted
(SessionManager.buildErrorSession). -/
def buildErrorSession (sessionId : String) (buyer : Option Buyer)
    (fulfillment_address : Option Address) (errors : List Message) : CheckoutSession :=
  { id := sessionId, buyer := buyer, payment_provider := getPaymentProvider,
    status := .not_ready_for_payment, currency := "usd", line_items := [],
    fulfillment_address := fulfillment_address, fulfillment_options := [],
    fulfillment_option_id := none, totals := [], messages := errors,
    links := generateLinks, order := none }

/-- Informational messages for a not-ready session
(SessionManager.generateMessages). -/
def generateMessages (status : CheckoutStatus) (requiresShipping : Bool)
    (address : Option Address) : List Message :=
  if status = .not_ready_for_payment && requiresShipping && address.isNone then
    [{ mtype := "info", code := none, param := some ("$.fulfillment_address"),
       content_type := "plain",
       content := "Please provide a shipping address to continue" }]
  else
    []

/-- Database row written for a session (SessionManager.saveSession columns). -/
def sessionRow (s : CheckoutSession) : StoredSession :=
  { id := s.id, buyer := s.buyer, status := s.status, currency := s.currency,
    fulfillment_address := s.fulfillment_address,
    fulfillment_option_id := s.fulfillment_option_id,
    order_id := s.order.map (fun o => o.id), line_items := s.line_items }

/-- Upsert of the session row plus wholesale replacement of its line-item
rows, in one transaction (SessionManager.saveSession). -/
def saveSession (st : MerchantState) (s : CheckoutSession) : MerchantState :=
  if st.sessions.any (fun row => row.id == s.id) then
    { st with sessions := st.sessions.map (fun row =>
        if row.id = s.id then sessionRow s else row) }
  else
    { st with sessions := st.sessions ++ [sessionRow s] }

/-- Reconstruct a session from storage, regenerating fulfillment options
and totals (SessionManager.getSession).  The catalog handle is retained
from the source class even though the un-awaited checkIfRequiresShipping
never consults it at runtime. -/
def getSession (_catalog : List Product) (st : MerchantState) (sessionId : String) :
    Option CheckoutSession :=
  (st.sessions.find? (fun row => row.id == sessionId)).map (fun row =>
    let lineItems := row.line_items
    let requiresShipping := checkIfRequiresShipping lineItems
    let fulfillmentOptions :=
      FulfillmentManager.generateOptions requiresShipping row.fulfillment_address
    let fulfillmentCost :=
      FulfillmentManager.getFulfillmentCost row.fulfillment_option_id fulfillmentOptions
    let totals :=
      PricingCalculator.calculateTotals lineItems fulfillmentCost row.fulfillment_address
    let order := row.order_id.bind (fun oid => st.orders.find? (fun o => o.id == oid))
    { id := row.id, buyer := row.buyer, payment_provider := getPaymentProvider,
      status := row.status, currency := row.currency, line_items := lineItems,
      fulfillment_address := row.fulfillment_address,
      fulfillment_options := fulfillmentOptions,
      fulfillment_option_id := row.fulfillment_option_id, totals := totals,
      messages := generateMessages row.status requiresShipping row.fulfillment_address,
      links := generateLinks, order := order })

/-- Create a new checkout session (SessionManager.createSession); the uuid
session id is a parameter.  Sessions with item-level errors are returned
but not saved. -/
def createSession (catalog : List Product) (st : MerchantState) (sessionId : String)
    (request : CheckoutSessionCreateRequest) : CheckoutSession × MerchantState :=
  let r := validateAndBuildLineItems catalog request.items
  if 0 < r.errors.length then
    (buildErrorSession sessionId request.buyer request.fulfillment_address r.errors, st)
  else
    let fulfillmentOptions :=
      FulfillmentManager.generateOptions r.requiresShipping request.fulfillment_address
    let fulfillmentOptionId := FulfillmentManager.selectDefaultOption fulfillmentOptions
    let fulfillmentCost :=
      FulfillmentManager.getFulfillmentCost fulfillmentOptionId fulfillmentOptions
    let totals :=
      PricingCalculator.calculateTotals r.lineItems fulfillmentCost
        request.fulfillment_address
    let status :=
      determineStatus r.lineItems r.requiresShipping request.fulfillment_address
        fulfillmentOptionId
    let session : CheckoutSession :=
      { id := sessionId, buyer := request.buyer, payment_provider := getPaymentProvider,
        status := status, currency := "usd", line_items := r.lineItems,
        fulfillment_address := request.fulfillment_address,
        fulfillment_options := fulfillmentOptions,
        fulfillment_option_id := fulfillmentOptionId, totals := totals,
        messages := generateMessages status r.requiresShipping request.fulfillment_address,
        links := generateLinks, order := none }
    (session, saveSession st session)

/-- Shared tail of updateSession once line items are settled. -/
def updateSessionWith (st : MerchantState) (sessionId : String)
    (request : CheckoutSessionUpdateRequest) (existing : CheckoutSession)
    (lineItems : List LineItem) (requiresShipping : Bool) :
    CheckoutSession × MerchantState :=
  let buyer := request.buyer <|> existing.buyer
  let fulfillmentAddress := request.fulfillment_address <|> existing.fulfillment_address
  let fulfillmentOptions :=
    FulfillmentManager.generateOptions requiresShipping fulfillmentAddress
  let fid0 := request.fulfillment_option_id <|> existing.fulfillment_option_id
  let fid1 :=
    match fid0 with
    | some fid =>
      if FulfillmentManager.validateOption fid fulfillmentOptions then some fid
      else FulfillmentManager.selectDefaultOption fulfillmentOptions
    | none => none
  let fid2 :=
    match fid1 with
    | none =>
      if 0 < fulfillmentOptions.length then
        FulfillmentManager.selectDefaultOption fulfillmentOptions
      else none
    | some f => some f
  let fulfillmentCost := FulfillmentManager.getFulfillmentCost fid2 fulfillmentOptions
  let totals := PricingCalculator.calculateTotals lineItems fulfillmentCost fulfillmentAddress
  let status := determineStatus lineItems requiresShipping fulfillmentAddress fid2
  let session : CheckoutSession :=
    { id := sessionId, buyer := buyer, payment_provider := getPaymentProvider,
      status := status, currency := "usd", line_items := lineItems,
      fulfillment_address := fulfillmentAddress,
      fulfillment_options := fulfillmentOptions, fulfillment_option_id := fid2,
      totals := totals,
      messages := generateMessages status requiresShipping fulfillmentAddress,
      links := generateLinks, order := none }
  (session, saveSession st session)

/-- Update an existing checkout session (SessionManager.updateSession).
Sessions with item-level errors are returned but not saved; a thrown error
leaves the store untouched, so the unchanged state rides along with the
error branch. -/
def updateSession (catalog : List Product) (st : MerchantState) (sessionId : String)
    (request : CheckoutSessionUpdateRequest) :
    Except String CheckoutSession × MerchantState :=
  match getSession catalog st sessionId with
  | none => (.error ("Session not found"), st)
  | some existing =>
    if existing.status = .completed || existing.status = .canceled then
      (.error ("Cannot update completed or canceled session"), st)
    else
      match request.items with
      | some items =>
        let r := validateAndBuildLineItems catalog items
        if 0 < r.errors.length then
          (.ok (buildErrorSession sessionId request.buyer request.fulfillment_address
                r.errors), st)
        else
          let out := updateSessionWith st sessionId request existing
                r.lineItems r.requiresShipping
          (.ok out.1, out.2)
      | none =>
        let out := updateSessionWith st sessionId request existing
              existing.line_items (checkIfRequiresShipping existing.line_items)
        (.ok out.1, out.2)

/-- Complete a checkout session and create an order
(SessionManager.completeSession).  The synchronous PSP round-trip is the
function parameter processPayment; the uuid order id is a parameter. -/
def completeSession (catalog : List Product) (st : MerchantState) (sessionId : String)
    (request : CheckoutSessionCompleteRequest)
    (processPayment : ProcessPaymentRequest → MerchantPaymentIntent)
    (orderId : String) : Except String CheckoutSession × MerchantState :=
  match getSession catalog st sessionId with
  | none => (.error ("Session not found"), st)
  | some session =>
    if session.status = .completed then
      (.error ("Session already completed"), st)
    else if session.status = .canceled then
      (.error ("Cannot complete canceled session"), st)
    else if session.status ≠ .ready_for_payment then
      (.error ("Session not ready for payment"), st)
    else
      let totalAmount :=
        match session.totals.find? (fun t => t.ttype == "total") with
        | some t => t.amount
        | none => 0
      let paymentIntent := processPayment
        { shared_payment_token := request.payment_data.token,
          amount := totalAmount, currency := session.currency }
      if paymentIntent.status ≠ "completed" then
        (.error ("Payment processing failed with status: " ++ paymentIntent.status), st)
      else
        let buyer := request.buyer <|> session.buyer
        let order : Order :=
          { id := orderId, checkout_session_id := sessionId,
            permalink_url := "https://merchant.example.com/orders/" ++ orderId }
        let st1 : MerchantState := { st with orders := st.orders ++ [order] }
        let st2 : MerchantState :=
          { st1 with sessions := st1.sessions.map (fun row =>
              if row.id = sessionId then
                { row with status := .completed, order_id := some order.id, buyer := buyer }
              else row) }
        match getSession catalog st2 sessionId with
        | none => (.error ("Failed to retrieve completed session"), st2)
        | some updated => (.ok updated, st2)

end SessionManager

/-! ## Observers and concrete fixtures used by the statements below -/

/-- Amount recorded in a totals array under a given entry type, defaulting
to 0 when the sparse array omits the entry (the reading used by the
totals-validation utility and by completeSession). -/
def totalOfType (totals : List Total) (ttype : String) : Int :=
  match totals.find? (fun t => t.ttype == ttype) with
  | some t => t.amount
  | none => 0

/-- Inductive invariant of the PSP store relative to one vault token:
every stored intent is completed (each call completes its own insert
within the call), at most one completed intent is funded by the token, and
an unconsumed token funds none. -/
def PspInv (st : PspState) (t : String) : Prop :=
  (∀ x ∈ st.payment_intents, x.status = IntentStatus.completed) ∧
  fundedIntents st t ≤ 1 ∧
  (tokenStatus st t ≠ some .consumed → fundedIntents st t = 0)

/-- California fulfillment address fixture. -/
def caAddress : Address :=
  { name := "Jane Doe", line_one := "1 Market St", line_two := none,
    city := "San Francisco", state := "CA", country := "US", postal_code := "94105" }

/-- Non-California fulfillment address fixture. -/
def nyAddress : Address :=
  { name := "Jane Doe", line_one := "5 Broadway", line_two := none,
    city := "New York", state := "NY", country := "US", postal_code := "10004" }

/-- One-product catalog fixture: the seeded demo item at 2999 cents that
requires shipping. -/
def demoCatalog : List Product :=
  [{ id := "item_123", name := "Demo Widget", base_price := 2999,
     available_quantity := 10, requires_shipping := true }]

/-- Scenario B create request: two units of item_123 with a CA address. -/
def scenarioBRequest : CheckoutSessionCreateRequest :=
  { items := [{ id := "item_123", quantity := 2 }], buyer := none,
    fulfillment_address := some caAddress }

/-- Create request with a shipping-required item and no address. -/
def noAddressRequest : CheckoutSessionCreateRequest :=
  { items := [{ id := "item_123", quantity := 2 }], buyer := none,
    fulfillment_address := none }

/-- Create request naming a product id absent from the catalog. -/
def unknownItemRequest : CheckoutSessionCreateRequest :=
  { items := [{ id := "item_404", quantity := 1 }], buyer := none,
    fulfillment_address := none }

/-- Empty merchant datastore fixture. -/
def emptyMerchantState : MerchantState :=
  { sessions := [], orders := [] }

/-- Allowance fixture: 7148 cents, usd, one-time, expiring at t = 1000000. -/
def demoAllowance : Allowance :=
  { max_amount := 7148, currency := "usd", reason := "one_time",
    expires_at := 1000000, merchant_id := "merchant_123" }

/-- Active vault-token fixture. -/
def activeToken : VaultToken :=
  { id := "vt_1", allowance := demoAllowance, status := .active }

/-- Consumed vault-token fixture. -/
def consumedToken : VaultToken :=
  { id := "vt_used", allowance := demoAllowance, status := .consumed }

/-- PSP datastore fixture with one active and one consumed token. -/
def pspState0 : PspState :=
  { vault_tokens := [activeToken, consumedToken], payment_intents := [] }

/-- Merchant datastore after creating the Scenario B session. -/
def scenarioBState : MerchantState :=
  (SessionManager.createSession demoCatalog emptyMerchantState ("cs_b") scenarioBRequest).2

/-- The Scenario B session as created. -/
def scenarioBSession : CheckoutSession :=
  (SessionManager.createSession demoCatalog emptyMerchantState ("cs_b") scenarioBRequest).1

/-- The Scenario B session as getSession reconstructs it from storage
(the un-awaited shipping check regenerates a digital option, drops the
stored shipping cost and recomputes the totals to 5998 + 600 = 6598). -/
def scenarioBRetrieved : CheckoutSession :=
  (SessionManager.getSession demoCatalog scenarioBState ("cs_b")).getD
    (SessionManager.buildErrorSession ("") none none [])

/-- Merchant datastore after creating the shipping-required cart with no
address (stored not_ready_for_payment, no fulfillment option). -/
def noAddrState : MerchantState :=
  (SessionManager.createSession demoCatalog emptyMerchantState ("cs_n") noAddressRequest).2

/-- Update request carrying only a buyer: no items, no address, no
fulfillment option. -/
def buyerOnlyUpdate : CheckoutSessionUpdateRequest :=
  { items := none,
    buyer := some { first_name := "Jane", last_name := "Doe",
                    email := "jane@example.com", phone_number := none },
    fulfillment_address := none, fulfillment_option_id := none }

/-- Session returned by the buyer-only update of the stored no-address
shipping cart. -/
def buggyUpdatedSession : CheckoutSession :=
  ((SessionManager.updateSession demoCatalog noAddrState ("cs_n")
      buyerOnlyUpdate).1.toOption).getD
    (SessionManager.buildErrorSession ("") none none [])

/-- Complete-request fixture. -/
def demoCompleteRequest : CheckoutSessionCompleteRequest :=
  { buyer := none,
    payment_data := { token := "vt_1", provider := "stripe", billing_address := none } }

/-- PSP stub that reports every payment intent as failed. -/
def failingGateway : ProcessPaymentRequest → MerchantPaymentIntent :=
  fun r => { id := "pi_fail", status := "failed", amount := r.amount, currency := r.currency }

/-! ## JSON request bodies and canonical serialization

JSON values as JS sees them: object fields keep insertion order, keys are
unique.  The list spines are dedicated inductives so that all functions
are plain structural recursions. -/

mutual

inductive Json where
| null : Json
| bool (b : Bool) : Json
| num (n : Int) : Json
| str (s : String) : Json
| arr (elems : JsonList) : Json
| obj (fields : JsonFields) : Json

inductive JsonList where
| nil : JsonList
| cons (hd : Json) (tl : JsonList) : JsonList

inductive JsonFields where
| nil : JsonFields
| cons (key : String) (val : Json) (tl : JsonFields) : JsonFields

end

/-- Lexicographic comparison of key character lists, the order JS
Array.sort() applies to object keys (code-unit order; kernel-computable,
unlike the well-founded String.lt). -/
def charListLt : List Char → List Char → Bool
| _, [] => false
| [], _ :: _ => true
| a :: as, b :: bs => if a < b then true else if b < a then false else charListLt as bs

/-- Key order used for canonical serialization. -/
def keyLt (a b : String) : Bool :=
  charListLt a.data b.data

/-- Insert one field into a key-sorted field list (ascending, as
Object.keys(...).sort() orders distinct keys). -/
def insertFieldSorted (key : String) (val : Json) : JsonFields → JsonFields
| .nil => .cons key val .nil
| .cons k v t =>
  if keyLt key k then .cons key val (.cons k v t)
  else .cons k v (insertFieldSorted key val t)

/-- Sort a field list by key (insertion sort; JS object keys are unique,
so any correct comparison sort produces this order). -/
def sortFieldsByKey : JsonFields → JsonFields
| .nil => .nil
| .cons k v t => insertFieldSorted k v (sortFieldsByKey t)

mutual

/-- Recursively sort object keys (the sortObject closure inside
IdempotencyService.generateRequestHash of the PSP). -/
def sortObject : Json → Json
| .null => .null
| .bool b => .bool b
| .num n => .num n
| .str s => .str s
| .arr xs => .arr (sortObjectList xs)
| .obj fs => .obj (sortFieldsByKey (sortObjectFields fs))

def sortObjectList : JsonList → JsonList
| .nil => .nil
| .cons h t => .cons (sortObject h) (sortObjectList t)

def sortObjectFields : JsonFields → JsonFields
| .nil => .nil
| .cons k v t => .cons k (sortObject v) (sortObjectFields t)

end

mutual

/-- JSON.stringify (string escaping elided: request bodies under test use
plain keys and values). -/
def stringify : Json → String
| .null => "null"
| .bool b => cond b ("true") ("false")
| .num n => toString n
| .str s => "\x22" ++ s ++ "\x22"
| .arr xs => "[" ++ stringifyList xs ++ "]"
| .obj fs => "\x7b" ++ stringifyFields fs ++ "\x7d"

def stringifyList : JsonList → String
| .nil => ""
| .cons h .nil => stringify h
| .cons h (.cons h2 t) => stringify h ++ "," ++ stringifyList (.cons h2 t)

def stringifyFields : JsonFields → String
| .nil => ""
| .cons k v .nil => "\x22" ++ k ++ "\x22:" ++ stringify v
| .cons k v (.cons k2 v2 t) =>
  "\x22" ++ k ++ "\x22:" ++ stringify v ++ "," ++ stringifyFields (.cons k2 v2 t)

end

/-- Render a structured error body as the JSON the route sends. -/
def ErrorBody.toJson (e : ErrorBody) : Json :=
  match e.param with
  | some p =>
    .obj (.cons ("type") (.str e.etype) (.cons ("code") (.str e.code)
      (.cons ("message") (.str e.message) (.cons ("param") (.str p) .nil))))
  | none =>
    .obj (.cons ("type") (.str e.etype) (.cons ("code") (.str e.code)
      (.cons ("message") (.str e.message) .nil)))

/-! ## Merchant idempotency (src/demo/merchant: IdempotencyService and
middleware/idempotency.ts).  The sha256 digest is modelled by the digested
string; response headers are presentational pass-through and are elided. -/

namespace Merchant

/-- Hash of the request body: sha256 over the raw (insertion-ordered)
JSON.stringify serialization (IdempotencyService.hashRequest). -/
def hashRequest (body : Json) : String :=
  stringify body

/-- Cached response record of the merchant in-memory idempotency cache. -/
structure IdempotencyRecord where
  requestHash : String
  responseStatus : Nat
  responseBody : Json
  timestamp : Nat

/-- Merchant idempotency cache: key-ordered Map plus the TTL (24 hours by
default in the source constructor). -/
structure IdemState where
  cache : List (String × IdempotencyRecord)
  ttlMs : Nat

/-- Outcome of IdempotencyService.check: a fresh request (with the cache
possibly cleaned of the expired record), a cached replay, or the thrown
request_not_idempotent error. -/
inductive CheckOutcome where
| fresh (cache : List (String × IdempotencyRecord)) : CheckOutcome
| replay (record : IdempotencyRecord) : CheckOutcome
| conflict : CheckOutcome

/-- Check if request is idempotent (IdempotencyService.check). -/
def check (st : IdemState) (now : Nat) (key : String) (body : Json) : CheckOutcome :=
  match st.cache.find? (fun e => e.1 == key) with
  | none => .fresh st.cache
  | some e =>
    let age := now - e.2.timestamp
    if st.ttlMs < age then
      .fresh (st.cache.filter (fun e2 => e2.1 != key))
    else if hashRequest body ≠ e.2.requestHash then
      .conflict
    else
      .replay e.2

/-- Save a response for future idempotent requests
(IdempotencyService.save; Map.set replaces an existing entry in place). -/
def save (cache : List (String × IdempotencyRecord)) (key : String) (body : Json)
    (responseStatus : Nat) (responseBody : Json) (now : Nat) :
    List (String × IdempotencyRecord) :=
  let record : IdempotencyRecord :=
    { requestHash := hashRequest body, responseStatus := responseStatus,
      responseBody := responseBody, timestamp := now }
  if cache.any (fun e => e.1 == key) then
    cache.map (fun e => if e.1 = key then (key, record) else e)
  else
    cache ++ [(key, record)]

/-- Error body the middleware sends on a request_not_idempotent conflict. -/
def requestNotIdempotentBody : Json :=
  ErrorBody.toJson
    { etype := "invalid_request", code := "request_not_idempotent",
      message := "Request body does not match previous request with same idempotency key",
      param := some ("Idempotency-Key") }

/-- Result of one POST through the idempotency middleware: response plus
the idempotency cache and application state afterwards. -/
structure MiddlewareResult (α : Type) where
  responseStatus : Nat
  responseBody : Json
  idem : IdemState
  app : α

/-- The idempotency middleware around one POST handler
(middleware/idempotency.ts handleIdempotency).  The handler is the wrapped
route: it consumes the application state and the body and produces the
response status, response body, and new application state.  The captured
response is saved only when the status is in the 2xx range. -/
def handleIdempotency {α : Type} (st : IdemState) (app : α) (now : Nat) (key : String)
    (body : Json) (handler : α → Json → Nat × Json × α) : MiddlewareResult α :=
  match check st now key body with
  | .conflict =>
    { responseStatus := 400, responseBody := requestNotIdempotentBody,
      idem := st, app := app }
  | .replay record =>
    { responseStatus := record.responseStatus, responseBody := record.responseBody,
      idem := st, app := app }
  | .fresh cache1 =>
    let r := handler app body
    let cache2 :=
      if 200 ≤ r.1 && r.1 < 300 then save cache1 key body r.1 r.2.1 now else cache1
    { responseStatus := r.1, responseBody := r.2.1,
      idem := { st with cache := cache2 }, app := r.2.2 }

end Merchant

/-! ## PSP idempotency (src/demo/psp/src/services/IdempotencyService.ts and
the delegate_payment route). -/

namespace Psp

/-- Row of the PSP idempotency_store table (key is the association key). -/
structure IdempotencyRecord where
  request_hash : String
  response_status : Nat
  response_body : Json

/-- Hash of the request body over the canonical key-sorted serialization
(IdempotencyService.generateRequestHash); sha256 modelled by the digested
string. -/
def generateRequestHash (body : Json) : String :=
  stringify (sortObject body)

/-- Check an idempotency key (IdempotencyService.checkIdempotency):
none for a new request, a cached response for a matching repeat, a thrown
409 conflict when the stored hash differs. -/
def checkIdempotency (store : List (String × IdempotencyRecord)) (key : String)
    (body : Json) : Except ApiError (Option (Nat × Json)) :=
  let requestHash := generateRequestHash body
  match store.find? (fun e => e.1 == key) with
  | none => .ok none
  | some e =>
    if e.2.request_hash ≠ requestHash then
      .error { status := 409,
               body := { etype := "idempotency_conflict", code := "idempotency_conflict",
                         message := "Idempotency key used with different parameters",
                         param := none } }
    else
      .ok (some (e.2.response_status, e.2.response_body))

/-- Store the response (IdempotencyService.storeResponse); the INSERT has
ON CONFLICT (idempotency_key) DO NOTHING, so an existing record is never
overwritten. -/
def storeResponse (store : List (String × IdempotencyRecord)) (key : String)
    (body : Json) (responseStatus : Nat) (responseBody : Json) :
    List (String × IdempotencyRecord) :=
  if store.any (fun e => e.1 == key) then
    store
  else
    store ++ [(key, { request_hash := generateRequestHash body,
                      response_status := responseStatus,
                      response_body := responseBody })]

/-- The idempotency section of POST /agentic_commerce/delegate_payment
(routes, after header/body validation): replay or 409 on a repeated key,
otherwise run the vault-token creation (the createVaultToken continuation,
which returns the 201 response body and the new token store) and save the
201 response.  Upstream request validation returns before this code and
never touches the idempotency store. -/
def delegatePayment {α : Type} (store : List (String × IdempotencyRecord)) (app : α)
    (key : String) (body : Json) (createVaultToken : α → Json → Json × α) :
    (Nat × Json) × List (String × IdempotencyRecord) × α :=
  match checkIdempotency store key body with
  | .error e => ((e.status, e.body.toJson), store, app)
  | .ok (some cached) => (cached, store, app)
  | .ok none =>
    let r := createVaultToken app body
    let store1 := storeResponse store key body 201 r.1
    ((201, r.1), store1, r.2)

end Psp

/-! ## Idempotency fixtures -/

/-- Request body with fields in insertion order a then b. -/
def bodyAB : Json :=
  .obj (.cons ("a") (.num 1) (.cons ("b") (.num 2) .nil))

/-- The same JSON value with fields serialized in the order b then a. -/
def bodyBA : Json :=
  .obj (.cons ("b") (.num 2) (.cons ("a") (.num 1) .nil))

/-- Handler fixture: a POST route whose side effect is counted in the
application state (one session per execution). -/
def sessionCounterHandler : Nat → Json → Nat × Json × Nat :=
  fun n _ => (201, .str ("resp"), n + 1)

/-- Merchant idempotency cache holding the 201 response to bodyAB under
key k1, stored at time 0, with the default 24-hour TTL. -/
def idemStateAB : Merchant.IdemState :=
  { cache := Merchant.save [] ("k1") bodyAB 201 (.str ("resp")) 0, ttlMs := 86400000 }

/-- PSP vault-token creation continuation fixture counting created tokens. -/
def tokenCounterCreate : Nat → Json → Json × Nat :=
  fun n _ => (.str ("vt_new"), n + 1)

/-! ## Helper lemmas -/

/-- Updating the rows with a given id commutes with looking the id up,
provided the update preserves ids. -/
theorem find?_update_rows (rows : List StoredSession) (sid : String)
    (f : StoredSession → StoredSession) (hf : ∀ r, (f r).id = r.id) :
    (rows.map (fun r => if r.id = sid then f r else r)).find? (fun r => r.id == sid) =
      (rows.find? (fun r => r.id == sid)).map f := by
  induction rows with
  | nil => rfl
  | cons r t ih =>
    by_cases h : r.id = sid
    · simp [List.find?, h, hf]
    · have h2 : (r.id == sid) = false := by simp [h]
      simp [List.find?, h, h2, ih]

theorem validateVaultToken_ok (st : PspState) (now : Nat) (vid : String) (tok : VaultToken)
    (h : PaymentIntentService.validateVaultToken st now vid = .ok tok) :
    PaymentIntentService.lookupVaultToken st vid = some tok ∧ tok.status ≠ .consumed := by
  unfold PaymentIntentService.validateVaultToken at h
  cases hl : PaymentIntentService.lookupVaultToken st vid with
  | none => rw [hl] at h; cases h
  | some v =>
    rw [hl] at h
    by_cases hc : v.status = .consumed
    · simp [hc] at h
    · by_cases he : v.allowance.expires_at < now
      · simp [hc, he] at h
      · simp [hc, he] at h
        exact ⟨by rw [h], by rw [← h]; exact hc⟩

theorem tokenStatus_invalidate_ne (st : PspState) (tk t : String) (h : t ≠ tk) :
    tokenStatus (PaymentIntentService.invalidateVaultToken st tk) t = tokenStatus st t := by
  obtain ⟨vt, pis⟩ := st
  unfold tokenStatus PaymentIntentService.lookupVaultToken
    PaymentIntentService.invalidateVaultToken
  induction vt with
  | nil => rfl
  | cons v l ih =>
    rw [List.map_cons]
    by_cases hv : v.id = t
    · have hvk : ¬ v.id = tk := fun hh => h (hv ▸ hh)
      rw [if_neg hvk, List.find?_cons_of_pos _ (by simp [hv]),
        List.find?_cons_of_pos _ (by simp [hv])]
    · by_cases htk : v.id = tk
      · rw [if_pos htk, List.find?_cons_of_neg _ (by simp [hv]),
          List.find?_cons_of_neg _ (by simp [hv])]
        exact ih
      · rw [if_neg htk, List.find?_cons_of_neg _ (by simp [hv]),
          List.find?_cons_of_neg _ (by simp [hv])]
        exact ih

theorem tokenStatus_invalidate_self (st : PspState) (tk : String) :
    tokenStatus (PaymentIntentService.invalidateVaultToken st tk) tk =
      (tokenStatus st tk).map (fun _ => TokenStatus.consumed) := by
  obtain ⟨vt, pis⟩ := st
  unfold tokenStatus PaymentIntentService.lookupVaultToken
    PaymentIntentService.invalidateVaultToken
  induction vt with
  | nil => rfl
  | cons v l ih =>
    rw [List.map_cons]
    by_cases hv : v.id = tk
    · rw [if_pos hv, List.find?_cons_of_pos _ (by simp [hv]),
        List.find?_cons_of_pos _ (by simp [hv])]
      rfl
    · rw [if_neg hv, List.find?_cons_of_neg _ (by simp [hv]),
        List.find?_cons_of_neg _ (by simp [hv])]
      exact ih

theorem fundedIntents_commit (intents : List PaymentIntent) (pi2 : PaymentIntent)
    (nid : String) (now : Nat) (t : String)
    (hall : ∀ x ∈ intents, x.status = .completed) (hpi : pi2.id = nid) :
    ((intents ++ [pi2]).map (fun x =>
        if x.id = nid then { x with status := .completed, completed_at := some now }
        else x)).countP
      (fun x => x.vault_token_id == t && x.status == IntentStatus.completed) =
    intents.countP (fun x => x.vault_token_id == t && x.status == IntentStatus.completed) +
      (if pi2.vault_token_id = t then 1 else 0) := by
  rw [List.map_append, List.countP_append, List.countP_map]
  have h1 : intents.countP ((fun x => x.vault_token_id == t &&
      x.status == IntentStatus.completed) ∘ (fun x =>
        if x.id = nid then { x with status := .completed, completed_at := some now }
        else x)) =
      intents.countP (fun x => x.vault_token_id == t && x.status == IntentStatus.completed) := by
    apply List.countP_congr
    intro x hx
    have hs := hall x hx
    by_cases hid : x.id = nid <;> simp [hid, hs]
  rw [h1]
  congr 1
  simp [hpi, List.countP_cons]

theorem createAndProcess_ok (st : PspState) (now : Nat) (nid : String)
    (req : CreatePaymentIntentRequest) (out : PspState × PaymentIntentResponse)
    (h : PaymentIntentService.createAndProcessPaymentIntent st now nid req = .ok out) :
    ∃ tok, PaymentIntentService.lookupVaultToken st req.shared_payment_token = some tok ∧
      tok.status ≠ .consumed ∧
      out.1 = PaymentIntentService.invalidateVaultToken
        (PaymentIntentService.completeIntent
          (PaymentIntentService.insertIntent st
            { id := nid, vault_token_id := req.shared_payment_token, status := .pending,
              amount := req.amount, currency := req.currency,
              merchant_id := req.merchant_id.getD tok.allowance.merchant_id,
              created := now, completed_at := none }) nid now)
        req.shared_payment_token := by
  unfold PaymentIntentService.createAndProcessPaymentIntent at h
  cases hv : PaymentIntentService.validateVaultToken st now req.shared_payment_token with
  | error e => rw [hv] at h; cases h
  | ok tok =>
    rw [hv] at h
    dsimp only at h
    cases hd : PaymentIntentService.validatePaymentDetails req.amount req.currency
        tok.allowance with
    | error e => rw [hd] at h; cases h
    | ok u =>
      rw [hd] at h
      dsimp only at h
      obtain ⟨hl, hc⟩ := validateVaultToken_ok st now _ tok hv
      refine ⟨tok, hl, hc, ?_⟩
      injection h with h2
      rw [← h2]

theorem pspStep_consumed (st : PspState) (c : PspCall) (t : String)
    (h : tokenStatus st t = some .consumed) :
    tokenStatus (pspStep st c) t = some .consumed := by
  unfold pspStep
  cases hres : PaymentIntentService.createAndProcessPaymentIntent st c.now c.newIntentId
      c.request with
  | error e => exact h
  | ok out =>
    obtain ⟨tok, hl, hc, hst⟩ := createAndProcess_ok _ _ _ _ _ hres
    obtain ⟨st1, resp⟩ := out
    dsimp only at hst ⊢
    rw [hst]
    by_cases hne : c.request.shared_payment_token = t
    · exfalso
      apply hc
      rw [hne] at hl
      have : tokenStatus st t = some tok.status := by
        unfold tokenStatus
        rw [hl]
        rfl
      rw [this] at h
      exact (Option.some.injEq _ _).mp h
    · rw [tokenStatus_invalidate_ne _ _ _ (fun hh => hne hh.symm)]
      exact h

theorem pspInv_step (st : PspState) (c : PspCall) (t : String) (h : PspInv st t) :
    PspInv (pspStep st c) t := by
  unfold pspStep
  cases hres : PaymentIntentService.createAndProcessPaymentIntent st c.now c.newIntentId
      c.request with
  | error e => exact h
  | ok out =>
    obtain ⟨tok, hl, hc, hst⟩ := createAndProcess_ok _ _ _ _ _ hres
    obtain ⟨st1, resp⟩ := out
    dsimp only at hst ⊢
    rw [hst]
    obtain ⟨hall, hle, hzero⟩ := h
    have hcount := fundedIntents_commit st.payment_intents
      { id := c.newIntentId, vault_token_id := c.request.shared_payment_token,
        status := .pending, amount := c.request.amount, currency := c.request.currency,
        merchant_id := c.request.merchant_id.getD tok.allowance.merchant_id,
        created := c.now, completed_at := none }
      c.newIntentId c.now t hall rfl
    refine ⟨?_, ?_, ?_⟩
    · intro x hx
      rcases List.mem_map.mp hx with ⟨y, hy, rfl⟩
      by_cases hid : y.id = c.newIntentId
      · simp [hid]
      · simp only [hid, if_false]
        rcases List.mem_append.mp hy with hy1 | hy2
        · exact hall y hy1
        · simp at hy2
          rw [hy2] at hid
          simp at hid
    · show ((st.payment_intents ++ [_]).map _).countP _ ≤ 1
      rw [hcount]
      by_cases hv : c.request.shared_payment_token = t
      · have h0 : fundedIntents st t = 0 := by
          apply hzero
          rw [hv] at hl
          have hts : tokenStatus st t = some tok.status := by
            unfold tokenStatus
            rw [hl]
            rfl
          rw [hts]
          intro hq
          exact hc ((Option.some.injEq _ _).mp hq)
        have hfi : fundedIntents st t =
            st.payment_intents.countP
              (fun x => x.vault_token_id == t && x.status == IntentStatus.completed) := rfl
        rw [hfi] at h0
        simp [hv, h0]
      · have hgoal : List.countP
            (fun x => x.vault_token_id == t && x.status == IntentStatus.completed)
            st.payment_intents ≤ 1 := hle
        dsimp only
        rw [if_neg hv]
        omega
    · intro hne
      by_cases hv : c.request.shared_payment_token = t
      · exfalso
        apply hne
        rw [hv, tokenStatus_invalidate_self]
        have hts : tokenStatus st t = some tok.status := by
          unfold tokenStatus
          rw [hv] at hl
          rw [hl]
          rfl
        have hbridge : (tokenStatus st t).map (fun _ => TokenStatus.consumed) =
            some TokenStatus.consumed := by
          rw [hts]
          rfl
        exact hbridge
      · rw [tokenStatus_invalidate_ne _ _ _ (fun hh => hv hh.symm)] at hne
        have hzz := hzero hne
        have hzz2 : List.countP
            (fun x => x.vault_token_id == t && x.status == IntentStatus.completed)
            st.payment_intents = 0 := hzz
        show ((st.payment_intents ++ [_]).map _).countP _ = 0
        rw [hcount]
        dsimp only
        rw [if_neg hv]
        omega

theorem pspRun_consumed (st : PspState) (calls : List PspCall) (t : String)
    (h : tokenStatus st t = some .consumed) :
    tokenStatus (pspRun st calls) t = some .consumed := by
  induction calls generalizing st with
  | nil => exact h
  | cons c cs ih => exact ih _ (pspStep_consumed st c t h)

theorem pspRun_inv (st : PspState) (calls : List PspCall) (t : String) (h : PspInv st t) :
    PspInv (pspRun st calls) t := by
  induction calls generalizing st with
  | nil => exact h
  | cons c cs ih => exact ih _ (pspInv_step st c t h)

theorem find?_append_of_none {α : Type} (p : α → Bool) (l1 l2 : List α)
    (h : l1.find? p = none) : (l1 ++ l2).find? p = l2.find? p := by
  induction l1 with
  | nil => rfl
  | cons a t ih =>
    rw [List.cons_append]
    cases hp : p a with
    | true => rw [List.find?_cons_of_pos _ hp] at h; cases h
    | false =>
      rw [List.find?_cons_of_neg _ (by simp [hp])] at h
      rw [List.find?_cons_of_neg _ (by simp [hp])]
      exact ih h

theorem any_eq_false_of_find?_eq_none {α : Type} (p : α → Bool) (l : List α)
    (h : l.find? p = none) : l.any p = false := by
  rw [List.any_eq_false]
  intro x hx
  have := List.find?_eq_none.mp h x hx
  simpa using this

theorem merchant_fresh_run {α : Type} (st : Merchant.IdemState) (app : α) (now : Nat)
    (key : String) (body : Json) (handler : α → Json → Nat × Json × α)
    (hn : st.cache.find? (fun x => x.1 == key) = none)
    (hs1 : 200 ≤ (handler app body).1) (hs2 : (handler app body).1 < 300) :
    Merchant.handleIdempotency st app now key body handler =
      { responseStatus := (handler app body).1, responseBody := (handler app body).2.1,
        idem := { st with cache := st.cache ++
          [(key, { requestHash := Merchant.hashRequest body,
                   responseStatus := (handler app body).1,
                   responseBody := (handler app body).2.1, timestamp := now })] },
        app := (handler app body).2.2 } := by
  unfold Merchant.handleIdempotency Merchant.check
  rw [hn]
  dsimp only
  rw [if_pos (by simp [hs1, hs2])]
  unfold Merchant.save
  rw [any_eq_false_of_find?_eq_none _ _ hn]
  simp

theorem merchant_replay_run {α : Type} (st : Merchant.IdemState) (app : α) (now : Nat)
    (key : String) (body : Json) (handler : α → Json → Nat × Json × α)
    (e : String × Merchant.IdempotencyRecord)
    (hfind : st.cache.find? (fun x => x.1 == key) = some e)
    (hage : now - e.2.timestamp ≤ st.ttlMs)
    (hhash : e.2.requestHash = Merchant.hashRequest body) :
    Merchant.handleIdempotency st app now key body handler =
      { responseStatus := e.2.responseStatus, responseBody := e.2.responseBody,
        idem := st, app := app } := by
  unfold Merchant.handleIdempotency Merchant.check
  rw [hfind]
  dsimp only
  rw [if_neg (by omega), if_neg (by rw [hhash]; exact fun hh => hh rfl)]

theorem merchant_one_effect {α : Type} (st : Merchant.IdemState) (app : α)
    (now1 now2 : Nat) (key : String) (body : Json) (handler : α → Json → Nat × Json × α)
    (hn : st.cache.find? (fun x => x.1 == key) = none)
    (hs1 : 200 ≤ (handler app body).1) (hs2 : (handler app body).1 < 300)
    (hT : now2 - now1 ≤ st.ttlMs) :
    (Merchant.handleIdempotency
        (Merchant.handleIdempotency st app now1 key body handler).idem
        (Merchant.handleIdempotency st app now1 key body handler).app
        now2 key body handler).app =
      (Merchant.handleIdempotency st app now1 key body handler).app ∧
    (Merchant.handleIdempotency
        (Merchant.handleIdempotency st app now1 key body handler).idem
        (Merchant.handleIdempotency st app now1 key body handler).app
        now2 key body handler).responseStatus =
      (Merchant.handleIdempotency st app now1 key body handler).responseStatus ∧
    (Merchant.handleIdempotency
        (Merchant.handleIdempotency st app now1 key body handler).idem
        (Merchant.handleIdempotency st app now1 key body handler).app
        now2 key body handler).responseBody =
      (Merchant.handleIdempotency st app now1 key body handler).responseBody := by
  rw [merchant_fresh_run st app now1 key body handler hn hs1 hs2]
  rw [merchant_replay_run _ _ now2 key body handler
    (key, { requestHash := Merchant.hashRequest body,
            responseStatus := (handler app body).1,
            responseBody := (handler app body).2.1, timestamp := now1 })
    (by
      dsimp only
      rw [find?_append_of_none _ _ _ hn]
      rw [List.find?_cons_of_pos _ (by simp)])
    (by dsimp only; omega)
    rfl]
  exact ⟨rfl, rfl, rfl⟩

theorem psp_replay_run {α : Type} (store : List (String × Psp.IdempotencyRecord)) (app : α)
    (key : String) (body : Json) (f : α → Json → Json × α)
    (e : String × Psp.IdempotencyRecord)
    (hfind : store.find? (fun x => x.1 == key) = some e)
    (hhash : e.2.request_hash = Psp.generateRequestHash body) :
    Psp.delegatePayment store app key body f =
      ((e.2.response_status, e.2.response_body), store, app) := by
  unfold Psp.delegatePayment Psp.checkIdempotency
  rw [hfind]
  dsimp only
  rw [if_neg (by rw [hhash]; exact fun hh => hh rfl)]

theorem psp_fresh_run {α : Type} (store : List (String × Psp.IdempotencyRecord)) (app : α)
    (key : String) (body : Json) (f : α → Json → Json × α)
    (hn : store.find? (fun x => x.1 == key) = none) :
    Psp.delegatePayment store app key body f =
      ((201, (f app body).1),
        store ++ [(key, { request_hash := Psp.generateRequestHash body,
                          response_status := 201, response_body := (f app body).1 })],
        (f app body).2) := by
  unfold Psp.delegatePayment Psp.checkIdempotency Psp.storeResponse
  rw [hn]
  dsimp only
  rw [any_eq_false_of_find?_eq_none _ _ hn]
  simp

theorem psp_one_effect {α : Type} (store : List (String × Psp.IdempotencyRecord)) (app : α)
    (key : String) (body : Json) (f : α → Json → Json × α)
    (hn : store.find? (fun x => x.1 == key) = none) :
    (Psp.delegatePayment
        (Psp.delegatePayment store app key body f).2.1
        (Psp.delegatePayment store app key body f).2.2 key body f).2.2 =
      (Psp.delegatePayment store app key body f).2.2 ∧
    (Psp.delegatePayment
        (Psp.delegatePayment store app key body f).2.1
        (Psp.delegatePayment store app key body f).2.2 key body f).2.1 =
      (Psp.delegatePayment store app key body f).2.1 ∧
    (Psp.delegatePayment
        (Psp.delegatePayment store app key body f).2.1
        (Psp.delegatePayment store app key body f).2.2 key body f).1 =
      (Psp.delegatePayment store app key body f).1 := by
  rw [psp_fresh_run store app key body f hn]
  rw [psp_replay_run _ _ key body f
    (key, { request_hash := Psp.generateRequestHash body,
            response_status := 201, response_body := (f app body).1 })
    (by
      dsimp only
      rw [find?_append_of_none _ _ _ hn]
      rw [List.find?_cons_of_pos _ (by simp)])
    rfl]
  exact ⟨rfl, rfl, rfl⟩

/-! ## Claims -/

/-- Claim C10: for a California address the computed tax on a taxable
amount t of minor units is the integer nearest t / 10, ties rounded up
(t = 6498 gives 650, t = 15 gives 2), and is always an integer amount. -/
theorem C10_tax_rounding (t : Nat) (addr : Address) (h : addr.state = "CA") :
    PricingCalculator.calculateTax t (some addr) = (t + 5) / 10 ∧
    (-4 : Int) ≤ 10 * (PricingCalculator.calculateTax t (some addr) : Int) - t ∧
    10 * (PricingCalculator.calculateTax t (some addr) : Int) - t ≤ 5 ∧
    ∀ k : Nat, (10 * (PricingCalculator.calculateTax t (some addr) : Int) - t).natAbs ≤
      (10 * (k : Int) - t).natAbs := by
  have e : PricingCalculator.calculateTax t (some addr) = (t + 5) / 10 := by
    simp [PricingCalculator.calculateTax, h]
  rw [e]
  refine ⟨rfl, by omega, by omega, fun k => by omega⟩

/-- Claim C10 witness: the rounding characterization evaluated at the
Scenario B taxable amount 6498 (tax 650) and at 15 (tax 2). -/
theorem C10_tax_rounding_witness :
    caAddress.state = "CA" ∧
    PricingCalculator.calculateTax 6498 (some caAddress) = 650 ∧
    PricingCalculator.calculateTax 15 (some caAddress) = 2 ∧
    ((-4 : Int) ≤ 10 * (PricingCalculator.calculateTax 6498 (some caAddress) : Int) - 6498 ∧
      10 * (PricingCalculator.calculateTax 6498 (some caAddress) : Int) - 6498 ≤ 5) :=
  ⟨rfl, rfl, rfl, (C10_tax_rounding 6498 caAddress rfl).2.1, (C10_tax_rounding 6498 caAddress
    rfl).2.2.1⟩

/-- Claim C7 (code-bug evidence): checkIfRequiresShipping reads
requires_shipping off the un-awaited Promise returned by the async
getProduct, so it returns false for every cart; consequently a buyer-only
update of a stored shipping-required cart that has no fulfillment address
derives ready_for_payment with a non-empty (digital) options list, where
the claimed derivation - which the create path, computing the flag inside
validateAndBuildLineItems with await, does implement - demands
not_ready_for_payment with an empty list. -/
theorem C7_unawaited_shipping_check_bug :
    (∀ lineItems : List LineItem,
       SessionManager.checkIfRequiresShipping lineItems = false) ∧
    (SessionManager.updateSession demoCatalog noAddrState ("cs_n") buyerOnlyUpdate).1 =
      .ok buggyUpdatedSession ∧
    buggyUpdatedSession.line_items.map (fun li => li.item.id) = ["item_123"] ∧
    (SessionManager.getProduct demoCatalog ("item_123")).map
      (fun p => p.requires_shipping) = some true ∧
    buggyUpdatedSession.fulfillment_address = none ∧
    buggyUpdatedSession.status = .ready_for_payment ∧
    buggyUpdatedSession.fulfillment_options.map (fun o => o.id) = ["digital_delivery"] := by
  refine ⟨?_, rfl, rfl, rfl, rfl, rfl, rfl⟩
  intro li
  simp [SessionManager.checkIfRequiresShipping]

/-- Claim C5: with a valid (present, unconsumed, unexpired) vault token,
an amount above allowance.max_amount fails with amount_exceeds_allowance,
a currency differing from allowance.currency (with the amount in range)
fails with currency_mismatch, and every validation failure leaves the PSP
state unchanged: the pending-intent insert happens strictly after
validation. -/
theorem C5_allowance_validation (st : PspState) (now : Nat) (nid : String)
    (req : CreatePaymentIntentRequest) (tok : VaultToken)
    (htok : PaymentIntentService.lookupVaultToken st req.shared_payment_token = some tok)
    (hcons : tok.status ≠ .consumed)
    (hexp : ¬ tok.allowance.expires_at < now) :
    (tok.allowance.max_amount < req.amount →
      PaymentIntentService.createAndProcessPaymentIntent st now nid req =
        .error { status := 400,
                 body := { etype := "invalid_request", code := "amount_exceeds_allowance",
                           message := "Amount " ++ toString req.amount ++
                             " exceeds maximum allowance of " ++
                             toString tok.allowance.max_amount,
                           param := some ("amount") } }) ∧
    (req.amount ≤ tok.allowance.max_amount → req.currency ≠ tok.allowance.currency →
      PaymentIntentService.createAndProcessPaymentIntent st now nid req =
        .error { status := 400,
                 body := { etype := "invalid_request", code := "currency_mismatch",
                           message := "Currency " ++ req.currency ++
                             " does not match vault token currency " ++
                             tok.allowance.currency,
                           param := some ("currency") } }) ∧
    (∀ e, PaymentIntentService.createAndProcessPaymentIntent st now nid req = .error e →
      pspStep st { now := now, newIntentId := nid, request := req } = st) := by
  have hval : PaymentIntentService.validateVaultToken st now req.shared_payment_token =
      .ok tok := by
    simp [PaymentIntentService.validateVaultToken, htok, hcons, hexp]
  refine ⟨?_, ?_, ?_⟩
  · intro hamt
    simp [PaymentIntentService.createAndProcessPaymentIntent, hval,
      PaymentIntentService.validatePaymentDetails, hamt]
  · intro hamt hcur
    have hlt : ¬ tok.allowance.max_amount < req.amount := by omega
    simp [PaymentIntentService.createAndProcessPaymentIntent, hval,
      PaymentIntentService.validatePaymentDetails, hlt, hcur]
  · intro e he
    simp [pspStep, he]

/-- Claim C5 witness: charging 9999 cents against the 7148-cent allowance
of the active fixture token fails with amount_exceeds_allowance and leaves
the fixture store unchanged. -/
theorem C5_allowance_validation_witness :
    PaymentIntentService.lookupVaultToken pspState0 ("vt_1") = some activeToken ∧
    PaymentIntentService.createAndProcessPaymentIntent pspState0 5 ("pi_x")
        { shared_payment_token := "vt_1", amount := 9999, currency := "usd",
          merchant_id := none } =
      .error { status := 400,
               body := { etype := "invalid_request", code := "amount_exceeds_allowance",
                         message := "Amount " ++ toString (9999 : Nat) ++
                           " exceeds maximum allowance of " ++ toString (7148 : Nat),
                         param := some ("amount") } } :=
  ⟨rfl,
    (C5_allowance_validation pspState0 5 ("pi_x")
      { shared_payment_token := "vt_1", amount := 9999, currency := "usd",
        merchant_id := none }
      activeToken rfl (by decide) (by decide)).1 (by decide)⟩

/-- Claim C9: a create or update that hits item-level validation errors
returns an error session (empty line items, the error messages, status
not_ready_for_payment) and does not touch the store: a create-produced
error session id cannot later be retrieved, and an update that hit item
errors leaves the stored session exactly as it was. -/
theorem C9_error_sessions_not_persisted :
    (∀ (catalog : List Product) (st : MerchantState) (sid : String)
       (req : CheckoutSessionCreateRequest),
       0 < (SessionManager.validateAndBuildLineItems catalog req.items).errors.length →
       (SessionManager.createSession catalog st sid req).2 = st ∧
       (SessionManager.createSession catalog st sid req).1.line_items = [] ∧
       (SessionManager.createSession catalog st sid req).1.status = .not_ready_for_payment ∧
       (SessionManager.createSession catalog st sid req).1.messages =
         (SessionManager.validateAndBuildLineItems catalog req.items).errors ∧
       (st.sessions.find? (fun row => row.id == sid) = none →
         SessionManager.getSession catalog
           (SessionManager.createSession catalog st sid req).2 sid = none)) ∧
    (∀ (catalog : List Product) (st : MerchantState) (sid : String)
       (req : CheckoutSessionUpdateRequest) (items : List Item),
       req.items = some items →
       0 < (SessionManager.validateAndBuildLineItems catalog items).errors.length →
       (SessionManager.updateSession catalog st sid req).2 = st ∧
       (∀ s, (SessionManager.updateSession catalog st sid req).1 = .ok s →
          s.line_items = [] ∧ s.status = .not_ready_for_payment ∧
          s.messages = (SessionManager.validateAndBuildLineItems catalog items).errors)) := by
  constructor
  · intro catalog st sid req herr
    refine ⟨?_, ?_, ?_, ?_, ?_⟩ <;>
      simp [SessionManager.createSession, herr, SessionManager.buildErrorSession]
    intro hfind
    simp [SessionManager.getSession, hfind]
    exact hfind
  · intro catalog st sid req items hitems herr
    cases hg : SessionManager.getSession catalog st sid with
    | none => simp [SessionManager.updateSession, hg]
    | some existing =>
      by_cases hterm : existing.status = .completed || existing.status = .canceled
      · simp [SessionManager.updateSession, hg, hterm]
      · simp [SessionManager.updateSession, hg, hterm, hitems, herr,
          SessionManager.buildErrorSession]

/-- Claim C9 witness: creating a session from an unknown product id on the
demo catalog returns an unpersisted error session whose id cannot be
retrieved afterwards. -/
theorem C9_error_sessions_not_persisted_witness :
    0 < (SessionManager.validateAndBuildLineItems demoCatalog
          unknownItemRequest.items).errors.length ∧
    (SessionManager.createSession demoCatalog emptyMerchantState ("cs_err")
        unknownItemRequest).2 = emptyMerchantState ∧
    (SessionManager.createSession demoCatalog emptyMerchantState ("cs_err")
        unknownItemRequest).1.line_items = [] ∧
    SessionManager.getSession demoCatalog
      (SessionManager.createSession demoCatalog emptyMerchantState ("cs_err")
        unknownItemRequest).2 ("cs_err") = none :=
  ⟨by decide,
    (C9_error_sessions_not_persisted.1 demoCatalog emptyMerchantState ("cs_err")
      unknownItemRequest (by decide)).1,
    (C9_error_sessions_not_persisted.1 demoCatalog emptyMerchantState ("cs_err")
      unknownItemRequest (by decide)).2.1,
    (C9_error_sessions_not_persisted.1 demoCatalog emptyMerchantState ("cs_err")
      unknownItemRequest (by decide)).2.2.2.2 rfl⟩

/-- Claim C8: the order-level tax entry is the rounded 10 percent of
(items subtotal + fulfillment cost) exactly when the address state is CA
and 0 otherwise; on the Scenario B session (one item at 2999 x 2, CA
address, default standard shipping of 500) the total is
5998 + 500 + 650 = 7148. -/
theorem C8_ca_tax_rule :
    (∀ (lineItems : List LineItem) (fulfillmentCost : Nat) (addr : Address),
       totalOfType (PricingCalculator.calculateTotals lineItems fulfillmentCost (some addr))
           ("tax") =
         if addr.state = "CA" then
           ((((((lineItems.map (fun li => li.base_amount)).sum -
              (lineItems.map (fun li => li.discount)).sum + fulfillmentCost) + 5) / 10 :
                Nat) : Int))
         else 0) ∧
    (∀ (lineItems : List LineItem) (fulfillmentCost : Nat),
       totalOfType (PricingCalculator.calculateTotals lineItems fulfillmentCost none) ("tax")
         = 0) ∧
    scenarioBSession.fulfillment_option_id = some ("standard_shipping") ∧
    totalOfType scenarioBSession.totals ("fulfillment") = 500 ∧
    totalOfType scenarioBSession.totals ("tax") = 650 ∧
    totalOfType scenarioBSession.totals ("total") = 7148 ∧
    scenarioBSession.status = .ready_for_payment := by
  refine ⟨?_, ?_, rfl, rfl, rfl, rfl, rfl⟩
  · intro li fc addr
    simp only [PricingCalculator.calculateTotals, PricingCalculator.calculateTax]
    generalize (List.map (fun x => x.base_amount) li).sum = S
    generalize (List.map (fun x => x.discount) li).sum = D
    split_ifs <;> simp_all [totalOfType, List.find?_append, List.find?] <;> omega
  · intro li fc
    simp only [PricingCalculator.calculateTotals, PricingCalculator.calculateTax]
    generalize (List.map (fun x => x.base_amount) li).sum = S
    generalize (List.map (fun x => x.discount) li).sum = D
    split_ifs <;> simp_all [totalOfType, List.find?_append, List.find?]

/-- Claim C6: complete succeeds only from ready_for_payment; it invokes
the gateway with the session's current total; a payment intent whose
status is not completed fails the call and leaves the store untouched; on
success the order append and the session-status flip to completed appear
together in the one post-state, with the order id recorded on the row. -/
theorem C6_complete_session (catalog : List Product) (st : MerchantState) (sid : String)
    (req : CheckoutSessionCompleteRequest)
    (processPayment : ProcessPaymentRequest → MerchantPaymentIntent) (oid : String) :
    (∀ s, (SessionManager.completeSession catalog st sid req processPayment oid).1 = .ok s →
       ∃ es, SessionManager.getSession catalog st sid = some es ∧
         es.status = .ready_for_payment) ∧
    (∀ es, SessionManager.getSession catalog st sid = some es →
       es.status ≠ .ready_for_payment →
       (SessionManager.completeSession catalog st sid req processPayment oid).2 = st ∧
       ∃ msg, (SessionManager.completeSession catalog st sid req processPayment oid).1 =
         .error msg) ∧
    (∀ es, SessionManager.getSession catalog st sid = some es →
       es.status = .ready_for_payment →
       (processPayment { shared_payment_token := req.payment_data.token,
                         amount := totalOfType es.totals ("total"),
                         currency := es.currency }).status ≠ "completed" →
       (SessionManager.completeSession catalog st sid req processPayment oid).2 = st ∧
       (SessionManager.completeSession catalog st sid req processPayment oid).1 =
         .error ("Payment processing failed with status: " ++
           (processPayment { shared_payment_token := req.payment_data.token,
                             amount := totalOfType es.totals ("total"),
                             currency := es.currency }).status)) ∧
    (∀ es, SessionManager.getSession catalog st sid = some es →
       es.status = .ready_for_payment →
       (processPayment { shared_payment_token := req.payment_data.token,
                         amount := totalOfType es.totals ("total"),
                         currency := es.currency }).status = "completed" →
       (SessionManager.completeSession catalog st sid req processPayment oid).2.orders =
         st.orders ++ [{ id := oid, checkout_session_id := sid,
                         permalink_url := "https://merchant.example.com/orders/" ++ oid }] ∧
       (∃ row, ((SessionManager.completeSession catalog st sid req processPayment
            oid).2.sessions.find? (fun r => r.id == sid)) = some row ∧
          row.status = .completed ∧ row.order_id = some oid) ∧
       (∃ s, (SessionManager.completeSession catalog st sid req processPayment oid).1 =
          .ok s)) := by
  refine ⟨?_, ?_, ?_, ?_⟩
  · intro s hs
    cases hg : SessionManager.getSession catalog st sid with
    | none => simp [SessionManager.completeSession, hg] at hs
    | some es =>
      by_cases hr : es.status = .ready_for_payment
      · exact ⟨es, rfl, hr⟩
      · exfalso
        simp only [SessionManager.completeSession, hg] at hs
        split_ifs at hs
  · intro es hg hnr
    simp only [SessionManager.completeSession, hg]
    split_ifs <;> exact ⟨rfl, _, rfl⟩
  · intro es hg hready hpne
    simp only [SessionManager.completeSession, hg]
    have hc1 : ¬ es.status = .completed := by simp [hready]
    have hc2 : ¬ es.status = .canceled := by simp [hready]
    have hc3 : ¬ es.status ≠ .ready_for_payment := not_not_intro hready
    rw [if_neg hc1, if_neg hc2, if_neg hc3]
    have hTA : (match es.totals.find? (fun t => t.ttype == "total") with
        | some t => t.amount
        | none => 0) = totalOfType es.totals ("total") := rfl
    rw [hTA, if_pos hpne]
    exact ⟨rfl, rfl⟩
  · intro es hg hready hpay
    simp only [SessionManager.completeSession, hg]
    have hc1 : ¬ es.status = .completed := by simp [hready]
    have hc2 : ¬ es.status = .canceled := by simp [hready]
    have hc3 : ¬ es.status ≠ .ready_for_payment := not_not_intro hready
    rw [if_neg hc1, if_neg hc2, if_neg hc3]
    have hTA : (match es.totals.find? (fun t => t.ttype == "total") with
        | some t => t.amount
        | none => 0) = totalOfType es.totals ("total") := rfl
    rw [hTA, if_neg (by simp [hpay])]
    simp only [SessionManager.getSession] at hg
    rcases Option.map_eq_some'.mp hg with ⟨row0, hrow0, hes⟩
    simp only [SessionManager.getSession]
    have hstep : List.find? (fun row => row.id == sid)
        (List.map (fun row => if row.id = sid then
          { id := row.id, buyer := req.buyer <|> es.buyer,
            status := CheckoutStatus.completed,
            currency := row.currency, fulfillment_address := row.fulfillment_address,
            fulfillment_option_id := row.fulfillment_option_id, order_id := some oid,
            line_items := row.line_items } else row) st.sessions) =
        some { id := row0.id, buyer := req.buyer <|> es.buyer,
               status := CheckoutStatus.completed,
               currency := row0.currency,
               fulfillment_address := row0.fulfillment_address,
               fulfillment_option_id := row0.fulfillment_option_id,
               order_id := some oid,
               line_items := row0.line_items } := by
      have h := find?_update_rows st.sessions sid (fun row =>
          { id := row.id, buyer := req.buyer <|> es.buyer,
            status := CheckoutStatus.completed,
            currency := row.currency, fulfillment_address := row.fulfillment_address,
            fulfillment_option_id := row.fulfillment_option_id, order_id := some oid,
            line_items := row.line_items }) (fun r => rfl)
      rw [hrow0] at h
      exact h
    rw [hstep]
    simp only [Option.map_some']
    refine ⟨trivial, ?_, ⟨_, rfl⟩⟩
    rw [hstep]
    exact ⟨_, rfl, rfl, rfl⟩

/-- Claim C6 witness: completing the ready Scenario B session, as
retrieved from storage, against the always-failing gateway fixture fails
and leaves the store unchanged. -/
theorem C6_complete_session_witness :
    SessionManager.getSession demoCatalog scenarioBState ("cs_b") =
      some scenarioBRetrieved ∧
    scenarioBRetrieved.status = .ready_for_payment ∧
    (SessionManager.completeSession demoCatalog scenarioBState ("cs_b") demoCompleteRequest
        failingGateway ("order_1")).2 = scenarioBState ∧
    (SessionManager.completeSession demoCatalog scenarioBState ("cs_b") demoCompleteRequest
        failingGateway ("order_1")).1 =
      .error ("Payment processing failed with status: " ++
        (failingGateway { shared_payment_token := demoCompleteRequest.payment_data.token,
                          amount := totalOfType scenarioBRetrieved.totals ("total"),
                          currency := scenarioBRetrieved.currency }).status) :=
  ⟨rfl, rfl,
    ((C6_complete_session demoCatalog scenarioBState ("cs_b") demoCompleteRequest
      failingGateway ("order_1")).2.2.1 scenarioBRetrieved rfl rfl (by decide)).1,
    ((C6_complete_session demoCatalog scenarioBState ("cs_b") demoCompleteRequest
      failingGateway ("order_1")).2.2.1 scenarioBRetrieved rfl rfl (by decide)).2⟩

/-- Claim C1: a consumed vault token stays consumed under every further
payment-intent call; a call against a consumed token fails with
vault_token_already_used and leaves the store unchanged (no intent row);
hence, starting from an empty intent table, no vault token ever funds two
successful payment intents. -/
theorem C1_vault_token_single_use :
    (∀ (st : PspState) (now : Nat) (nid : String) (req : CreatePaymentIntentRequest),
       tokenStatus st req.shared_payment_token = some .consumed →
       PaymentIntentService.createAndProcessPaymentIntent st now nid req =
         .error { status := 400,
                  body := { etype := "invalid_request", code := "vault_token_already_used",
                            message := "Vault token has already been used",
                            param := some ("shared_payment_token") } } ∧
       pspStep st { now := now, newIntentId := nid, request := req } = st) ∧
    (∀ (st : PspState) (calls : List PspCall) (t : String),
       tokenStatus st t = some .consumed →
       tokenStatus (pspRun st calls) t = some .consumed) ∧
    (∀ (st : PspState) (calls : List PspCall) (t : String),
       st.payment_intents = [] →
       fundedIntents (pspRun st calls) t ≤ 1) := by
  refine ⟨?_, pspRun_consumed, ?_⟩
  · intro st now nid req h
    unfold tokenStatus at h
    cases hl : PaymentIntentService.lookupVaultToken st req.shared_payment_token with
    | none => rw [hl] at h; cases h
    | some v =>
      rw [hl] at h
      have hs : v.status = .consumed := by
        simpa using h
      have hval : PaymentIntentService.validateVaultToken st now req.shared_payment_token =
          .error { status := 400,
                   body := { etype := "invalid_request", code := "vault_token_already_used",
                             message := "Vault token has already been used",
                             param := some ("shared_payment_token") } } := by
        unfold PaymentIntentService.validateVaultToken
        rw [hl]
        simp [hs]
      constructor
      · unfold PaymentIntentService.createAndProcessPaymentIntent
        rw [hval]
      · unfold pspStep
        unfold PaymentIntentService.createAndProcessPaymentIntent
        rw [hval]
  · intro st calls t h0
    have hinv : PspInv st t := by
      refine ⟨?_, ?_, ?_⟩
      · intro x hx
        rw [h0] at hx
        cases hx
      · show st.payment_intents.countP _ ≤ 1
        rw [h0]
        simp
      · intro hne
        show st.payment_intents.countP _ = 0
        rw [h0]
        rfl
    exact (pspRun_inv st calls t hinv).2.1

/-- Claim C1 witness: the consumed fixture token is rejected with
vault_token_already_used, and running the same charge twice against the
active fixture token funds exactly one completed intent. -/
theorem C1_vault_token_single_use_witness :
    tokenStatus pspState0 ("vt_used") = some .consumed ∧
    PaymentIntentService.createAndProcessPaymentIntent pspState0 5 ("pi_y")
        { shared_payment_token := "vt_used", amount := 100, currency := "usd",
          merchant_id := none } =
      .error { status := 400,
               body := { etype := "invalid_request", code := "vault_token_already_used",
                         message := "Vault token has already been used",
                         param := some ("shared_payment_token") } } ∧
    fundedIntents
      (pspRun pspState0
        [{ now := 5, newIntentId := "pi_a",
           request := { shared_payment_token := "vt_1", amount := 100, currency := "usd",
                        merchant_id := none } },
         { now := 6, newIntentId := "pi_b",
           request := { shared_payment_token := "vt_1", amount := 100, currency := "usd",
                        merchant_id := none } }]) ("vt_1") ≤ 1 ∧
    fundedIntents
      (pspRun pspState0
        [{ now := 5, newIntentId := "pi_a",
           request := { shared_payment_token := "vt_1", amount := 100, currency := "usd",
                        merchant_id := none } },
         { now := 6, newIntentId := "pi_b",
           request := { shared_payment_token := "vt_1", amount := 100, currency := "usd",
                        merchant_id := none } }]) ("vt_1") = 1 :=
  ⟨rfl,
    (C1_vault_token_single_use.1 pspState0 5 ("pi_y")
      { shared_payment_token := "vt_used", amount := 100, currency := "usd",
        merchant_id := none } rfl).1,
    C1_vault_token_single_use.2.2 pspState0
      [{ now := 5, newIntentId := "pi_a",
         request := { shared_payment_token := "vt_1", amount := 100, currency := "usd",
                      merchant_id := none } },
       { now := 6, newIntentId := "pi_b",
         request := { shared_payment_token := "vt_1", amount := 100, currency := "usd",
                      merchant_id := none } }] ("vt_1") rfl,
    by decide⟩


/-- Claim C4 counterexample: two bodies equal as JSON values (same
key-sorted form) whose Merchant hashes differ, so the Merchant raises a
conflict on a key-reordered retry instead of matching the stored record. -/
theorem C4_merchant_hash_counterexample :
    sortObject bodyAB = sortObject bodyBA ∧
    Merchant.hashRequest bodyAB ≠ Merchant.hashRequest bodyBA ∧
    Merchant.check idemStateAB 1 ("k1") bodyBA = .conflict :=
  ⟨rfl, by decide, rfl⟩

/-- Claim C4 amended: only the PSP hashes over a canonical key-sorted
serialization, so JSON-equal bodies with reordered keys match its stored
record; the Merchant hashes the raw serialization and treats a reordered
retry as a conflict. -/
theorem C4_canonical_hash_amended :
    (∀ a b : Json, sortObject a = sortObject b →
       Psp.generateRequestHash a = Psp.generateRequestHash b) ∧
    Psp.checkIdempotency (Psp.storeResponse [] ("k1") bodyAB 201 (.str ("resp")))
        ("k1") bodyBA = .ok (some (201, .str ("resp"))) := by
  constructor
  · intro a b h
    unfold Psp.generateRequestHash
    rw [h]
  · rfl

/-- Claim C4 amended witness: the two reordered fixture bodies get the
same PSP hash. -/
theorem C4_canonical_hash_amended_witness :
    sortObject bodyAB = sortObject bodyBA ∧
    Psp.generateRequestHash bodyAB = Psp.generateRequestHash bodyBA :=
  ⟨rfl, C4_canonical_hash_amended.1 bodyAB bodyBA rfl⟩

/-- Claim C3 counterexample: on a repeated key with a different body the
Merchant middleware answers HTTP 400 (request_not_idempotent), not 409;
the handler does not run and the stored record is untouched. -/
theorem C3_merchant_conflict_status_counterexample :
    (Merchant.handleIdempotency idemStateAB (0 : Nat) 1 ("k1") bodyBA
        sessionCounterHandler).responseStatus = 400 ∧
    (Merchant.handleIdempotency idemStateAB (0 : Nat) 1 ("k1") bodyBA
        sessionCounterHandler).responseStatus ≠ 409 ∧
    (Merchant.handleIdempotency idemStateAB (0 : Nat) 1 ("k1") bodyBA
        sessionCounterHandler).app = 0 ∧
    (Merchant.handleIdempotency idemStateAB (0 : Nat) 1 ("k1") bodyBA
        sessionCounterHandler).idem = idemStateAB :=
  ⟨rfl, by decide, rfl, rfl⟩

/-- Claim C3 amended: a repeated key with a differing body hash is
rejected without the cached response and without overwriting the stored
record: the PSP answers 409 idempotency_conflict, the Merchant answers
400 request_not_idempotent (inside its TTL window). -/
theorem C3_conflict_amended :
    (∀ {α : Type} (st : Merchant.IdemState) (app : α) (now : Nat) (key : String)
       (body : Json) (handler : α → Json → Nat × Json × α)
       (e : String × Merchant.IdempotencyRecord),
       st.cache.find? (fun x => x.1 == key) = some e →
       now - e.2.timestamp ≤ st.ttlMs →
       Merchant.hashRequest body ≠ e.2.requestHash →
       Merchant.handleIdempotency st app now key body handler =
         { responseStatus := 400, responseBody := Merchant.requestNotIdempotentBody,
           idem := st, app := app }) ∧
    (∀ {α : Type} (store : List (String × Psp.IdempotencyRecord)) (app : α) (key : String)
       (body : Json) (createVaultToken : α → Json → Json × α)
       (e : String × Psp.IdempotencyRecord),
       store.find? (fun x => x.1 == key) = some e →
       e.2.request_hash ≠ Psp.generateRequestHash body →
       Psp.delegatePayment store app key body createVaultToken =
         ((409, ErrorBody.toJson
             { etype := "idempotency_conflict", code := "idempotency_conflict",
               message := "Idempotency key used with different parameters",
               param := none }), store, app)) := by
  constructor
  · intro α st app now key body handler e hfind hage hhash
    unfold Merchant.handleIdempotency Merchant.check
    rw [hfind]
    dsimp only
    rw [if_neg (by omega), if_pos hhash]
  · intro α store app key body f e hfind hhash
    unfold Psp.delegatePayment Psp.checkIdempotency
    rw [hfind]
    dsimp only
    rw [if_pos hhash]

/-- Claim C3 amended witness: the conflict branches evaluated on the
fixture stores. -/
theorem C3_conflict_amended_witness :
    Merchant.handleIdempotency idemStateAB (0 : Nat) 1 ("k1") bodyBA
        sessionCounterHandler =
      { responseStatus := 400, responseBody := Merchant.requestNotIdempotentBody,
        idem := idemStateAB, app := 0 } ∧
    Psp.delegatePayment (Psp.storeResponse [] ("k1") bodyAB 201 (.str ("resp")))
        (0 : Nat) ("k1") (Json.num 7) tokenCounterCreate =
      ((409, ErrorBody.toJson
          { etype := "idempotency_conflict", code := "idempotency_conflict",
            message := "Idempotency key used with different parameters",
            param := none }),
        Psp.storeResponse [] ("k1") bodyAB 201 (.str ("resp")), 0) :=
  ⟨C3_conflict_amended.1 idemStateAB 0 1 ("k1") bodyBA sessionCounterHandler
      (("k1"), { requestHash := Merchant.hashRequest bodyAB, responseStatus := 201,
                 responseBody := .str ("resp"), timestamp := 0 })
      rfl (by decide) (by decide),
    C3_conflict_amended.2 (Psp.storeResponse [] ("k1") bodyAB 201 (.str ("resp"))) 0
      ("k1") (Json.num 7) tokenCounterCreate
      (("k1"), { request_hash := Psp.generateRequestHash bodyAB, response_status := 201,
                 response_body := .str ("resp") })
      rfl (by decide)⟩

/-- Claim C2 counterexample: the merchant idempotency cache expires after
its 24-hour TTL, so repeating the same key and body 86400001 ms later
re-executes the handler and creates a second session, refuting the claim
that exactly one side effect is ever produced per (key, body) pair even
though the first response was a stored 201. -/
theorem C2_ttl_reexecution_counterexample :
    (Merchant.handleIdempotency { cache := [], ttlMs := 86400000 } (0 : Nat) 0 ("k1") bodyAB
        sessionCounterHandler).responseStatus = 201 ∧
    (Merchant.handleIdempotency { cache := [], ttlMs := 86400000 } (0 : Nat) 0 ("k1") bodyAB
        sessionCounterHandler).app = 1 ∧
    (Merchant.handleIdempotency
        (Merchant.handleIdempotency { cache := [], ttlMs := 86400000 } (0 : Nat) 0 ("k1")
          bodyAB sessionCounterHandler).idem
        (Merchant.handleIdempotency { cache := [], ttlMs := 86400000 } (0 : Nat) 0 ("k1")
          bodyAB sessionCounterHandler).app
        86400001 ("k1") bodyAB sessionCounterHandler).app = 2 :=
  ⟨rfl, rfl, rfl⟩

/-- Claim C2 amended: a first-seen key executes the handler and stores the
response exactly when it is 2xx; a repeat with the matching body hash
replays the stored status and body without re-running the handler —
unconditionally at the PSP, and at the Merchant as long as the repeat
falls inside the cache TTL — so within that window exactly one side
effect happens per (key, body) pair. -/
theorem C2_idempotent_replay_amended :
    (∀ {α : Type} (st : Merchant.IdemState) (app : α) (now : Nat) (key : String)
       (body : Json) (handler : α → Json → Nat × Json × α),
       st.cache.find? (fun x => x.1 == key) = none →
       200 ≤ (handler app body).1 → (handler app body).1 < 300 →
       Merchant.handleIdempotency st app now key body handler =
         { responseStatus := (handler app body).1,
           responseBody := (handler app body).2.1,
           idem := { st with cache := st.cache ++
             [(key, { requestHash := Merchant.hashRequest body,
                      responseStatus := (handler app body).1,
                      responseBody := (handler app body).2.1, timestamp := now })] },
           app := (handler app body).2.2 }) ∧
    (∀ {α : Type} (st : Merchant.IdemState) (app : α) (now : Nat) (key : String)
       (body : Json) (handler : α → Json → Nat × Json × α),
       st.cache.find? (fun x => x.1 == key) = none →
       ¬ (200 ≤ (handler app body).1 ∧ (handler app body).1 < 300) →
       (Merchant.handleIdempotency st app now key body handler).idem.cache = st.cache) ∧
    (∀ {α : Type} (st : Merchant.IdemState) (app : α) (now : Nat) (key : String)
       (body : Json) (handler : α → Json → Nat × Json × α)
       (e : String × Merchant.IdempotencyRecord),
       st.cache.find? (fun x => x.1 == key) = some e →
       now - e.2.timestamp ≤ st.ttlMs →
       e.2.requestHash = Merchant.hashRequest body →
       Merchant.handleIdempotency st app now key body handler =
         { responseStatus := e.2.responseStatus, responseBody := e.2.responseBody,
           idem := st, app := app }) ∧
    (∀ {α : Type} (st : Merchant.IdemState) (app : α) (now1 now2 : Nat) (key : String)
       (body : Json) (handler : α → Json → Nat × Json × α),
       st.cache.find? (fun x => x.1 == key) = none →
       200 ≤ (handler app body).1 → (handler app body).1 < 300 →
       now2 - now1 ≤ st.ttlMs →
       (Merchant.handleIdempotency
           (Merchant.handleIdempotency st app now1 key body handler).idem
           (Merchant.handleIdempotency st app now1 key body handler).app
           now2 key body handler).app =
         (Merchant.handleIdempotency st app now1 key body handler).app ∧
       (Merchant.handleIdempotency
           (Merchant.handleIdempotency st app now1 key body handler).idem
           (Merchant.handleIdempotency st app now1 key body handler).app
           now2 key body handler).responseStatus =
         (Merchant.handleIdempotency st app now1 key body handler).responseStatus ∧
       (Merchant.handleIdempotency
           (Merchant.handleIdempotency st app now1 key body handler).idem
           (Merchant.handleIdempotency st app now1 key body handler).app
           now2 key body handler).responseBody =
         (Merchant.handleIdempotency st app now1 key body handler).responseBody) ∧
    (∀ {α : Type} (store : List (String × Psp.IdempotencyRecord)) (app : α) (key : String)
       (body : Json) (f : α → Json → Json × α) (e : String × Psp.IdempotencyRecord),
       store.find? (fun x => x.1 == key) = some e →
       e.2.request_hash = Psp.generateRequestHash body →
       Psp.delegatePayment store app key body f =
         ((e.2.response_status, e.2.response_body), store, app)) ∧
    (∀ {α : Type} (store : List (String × Psp.IdempotencyRecord)) (app : α) (key : String)
       (body : Json) (f : α → Json → Json × α),
       store.find? (fun x => x.1 == key) = none →
       (Psp.delegatePayment
           (Psp.delegatePayment store app key body f).2.1
           (Psp.delegatePayment store app key body f).2.2 key body f).2.2 =
         (Psp.delegatePayment store app key body f).2.2 ∧
       (Psp.delegatePayment
           (Psp.delegatePayment store app key body f).2.1
           (Psp.delegatePayment store app key body f).2.2 key body f).1 =
         (Psp.delegatePayment store app key body f).1) := by
  refine ⟨?_, ?_, ?_, ?_, ?_, ?_⟩
  · intro α st app now key body handler hn hs1 hs2
    exact merchant_fresh_run st app now key body handler hn hs1 hs2
  · intro α st app now key body handler hn hbad
    unfold Merchant.handleIdempotency Merchant.check
    rw [hn]
    dsimp only
    rw [if_neg (by simpa using hbad)]
  · intro α st app now key body handler e hfind hage hhash
    exact merchant_replay_run st app now key body handler e hfind hage hhash
  · intro α st app now1 now2 key body handler hn hs1 hs2 hT
    exact merchant_one_effect st app now1 now2 key body handler hn hs1 hs2 hT
  · intro α store app key body f e hfind hhash
    exact psp_replay_run store app key body f e hfind hhash
  · intro α store app key body f hn
    obtain ⟨h1, h2, h3⟩ := psp_one_effect store app key body f hn
    exact ⟨h1, h3⟩

/-- Claim C2 amended witness: the one-effect properties evaluated on the
fixture handler and continuation from empty stores, with the repeat 100 ms
later. -/
theorem C2_idempotent_replay_amended_witness :
    ((Merchant.handleIdempotency
        (Merchant.handleIdempotency { cache := [], ttlMs := 86400000 } (0 : Nat) 0 ("k1")
          bodyAB sessionCounterHandler).idem
        (Merchant.handleIdempotency { cache := [], ttlMs := 86400000 } (0 : Nat) 0 ("k1")
          bodyAB sessionCounterHandler).app
        100 ("k1") bodyAB sessionCounterHandler).app =
      (Merchant.handleIdempotency { cache := [], ttlMs := 86400000 } (0 : Nat) 0 ("k1")
        bodyAB sessionCounterHandler).app) ∧
    ((Psp.delegatePayment
        (Psp.delegatePayment [] (0 : Nat) ("k1") bodyAB tokenCounterCreate).2.1
        (Psp.delegatePayment [] (0 : Nat) ("k1") bodyAB tokenCounterCreate).2.2
        ("k1") bodyAB tokenCounterCreate).2.2 =
      (Psp.delegatePayment [] (0 : Nat) ("k1") bodyAB tokenCounterCreate).2.2) :=
  ⟨(C2_idempotent_replay_amended.2.2.2.1
      { cache := [], ttlMs := 86400000 } 0 0 100 ("k1") bodyAB sessionCounterHandler
      rfl (by decide) (by decide) (by decide)).1,
    (C2_idempotent_replay_amended.2.2.2.2.2 [] 0 ("k1") bodyAB tokenCounterCreate rfl).1⟩

end ACP
